import Mathlib

/-!
Verification development for the exact minimum-triangulation search engine
(`Algorithm_MinimumTriangulation` in `src/MT.py`).

The engine state is embedded shallowly: Python objects become structures,
attribute mutation becomes functional record update, the unbounded `while`
loop of `run` becomes a fuel-indexed iteration of its loop body, and the
`MT_TooLargeCycleError` exception becomes an `Except` result.

The collaborator graph library (`graph_meta`, imported as `gm`, and
`networkx`) is not part of `src/`; its cycle enumeration, structural cycle
equality and chordality test are modelled from the specification, and each
such definition is marked `Modelled from the spec:` in its doc comment.
-/

/-! ## Graphs -/

abbrev Node := Nat

abbrev Edge := Nat × Nat

/-- Undirected edges are kept endpoint-sorted. -/
def normEdge (u v : Node) : Edge := if u ≤ v then (u, v) else (v, u)

/-- A graph is its list of (normalised) edges. -/
abbrev Graph := List Edge

def hasEdge (g : Graph) (u v : Node) : Bool :=
  decide (u ≠ v) && decide (normEdge u v ∈ g)

/-- `G.copy()` followed by `add_edges_from(es)`: edges are added once each. -/
def addEdges (g : Graph) (es : List Edge) : Graph :=
  es.foldl (fun h e => if normEdge e.1 e.2 ∈ h then h else h ++ [normEdge e.1 e.2]) g

/-- Insert into an ascending duplicate-free list. -/
def insertAsc (x : Nat) : List Nat → List Nat
  | [] => [x]
  | y :: ys => if x < y then x :: y :: ys else if x = y then y :: ys else y :: insertAsc x ys

/-- The nodes of a graph, ascending and duplicate-free. -/
def nodesOf (g : Graph) : List Node :=
  g.foldr (fun e acc => insertAsc e.1 (insertAsc e.2 acc)) []

/-- Neighbours of a node, ascending. -/
def nbrs (g : Graph) (v : Node) : List Node :=
  (nodesOf g).filter (fun u => hasEdge g v u)

/-- The index pairs `(i, j)` visited by the chord-discovery double loop of
`init_cycle_chord_database_for_cycle` (`src/MT.py` lines 288-293) on a cycle
of `n` nodes: `i + 2 ≤ j ≤ n - 1`, except that for `i = 0` the inner loop
breaks at `j = n - 1` (the wrap-around pair is not a chord). -/
def chordPairs (n : Nat) : List (Nat × Nat) :=
  ((List.range n).map (fun i =>
    ((List.range n).filter (fun j => i + 2 ≤ j && !(i == 0 && j == n - 1))).map
      (fun j => (i, j)))).flatten

/-- A node sequence has no chord in `g`: no edge between cyclically
non-adjacent positions. -/
def chordlessb (g : Graph) (c : List Node) : Bool :=
  (chordPairs c.length).all (fun ij => !(hasEdge g (c.getD ij.1 0) (c.getD ij.2 0)))

/-- Pruning rule for chordless-cycle search: a new node `w` may be adjacent,
among the nodes already on the path, only to the current endpoint and to the
start node `s`.  Every prefix of a chordless cycle satisfies this, and any
cycle reached through a violating extension has a chord, so pruning does not
change the set of chordless cycles enumerated. -/
def extendOk (g : Graph) (s : Node) (revpath : List Node) (w : Node) : Bool :=
  match revpath with
  | [] => true
  | last :: rest =>
    (decide (rest.length ≤ 1) || !(hasEdge g last s)) &&
    rest.all (fun x => x == s || !(hasEdge g w x))

/-- Depth-first enumeration (with chord pruning) of simple cycles through
start node `s` that use only nodes `> s` besides `s` itself.  `revpath` is
the current path, reversed.  Each chordless cycle of the graph with minimum
node `s` is produced in both traversal directions. -/
def extendCycles (g : Graph) (ns : List Node) (s : Node) (revpath : List Node) :
    Nat → List (List Node)
  | 0 => []
  | fuel + 1 =>
    let last := revpath.headD s
    let closed := if 3 ≤ revpath.length && hasEdge g last s then [revpath.reverse] else []
    closed ++ (ns.filter (fun u => hasEdge g last u)).foldr
      (fun w acc =>
        if s < w && !(revpath.contains w) && extendOk g s revpath w then
          extendCycles g ns s (w :: revpath) fuel ++ acc
        else acc) []

/-- Keep one traversal direction per cycle: the second node must be smaller
than the last. -/
def dirOk : List Node → Bool
  | _ :: b :: rest => decide (b < rest.getLastD b)
  | _ => false

/-- Modelled from the spec: the collaborator graph library's cycle
enumeration.  The spec describes a catalog of "elementary and induced
cycles" produced from the graph (an induced = chordless cycle is reported as
an ordered node sequence, deduplicated rotation/direction-invariantly, in a
fixed deterministic discovery order).  We enumerate every chordless cycle
once, starting at its minimum node, in ascending depth-first order. -/
def allChordlessCycles (g : Graph) : List (List Node) :=
  ((((nodesOf g).map (fun s => extendCycles g (nodesOf g) s [s] (nodesOf g).length))).flatten).filter
    (fun c => dirOk c && chordlessb g c)

/-- Modelled from the spec: `networkx.is_chordal` — every cycle of length
≥ 4 has a chord, i.e. every chordless cycle is a triangle. -/
def is_chordal (g : Graph) : Bool :=
  (allChordlessCycles g).all (fun c => decide (c.length ≤ 3))

/-- Modelled from the spec: `graph_meta.get_all_cycle_from_cycle_basis` (not
under `src/`): the cycles registered in the catalog.  Per the spec's data
model, tracked cycles have length ≥ 4 ("chordal triangles are never
tracked"), so the enumeration reports the chordless cycles of length > 3. -/
def get_all_cycle_from_cycle_basis (g : Graph) : List (List Node) :=
  (allChordlessCycles g).filter (fun c => decide (3 < c.length))

/-! ## Structural cycle equality (`gm.Cycle`) -/

/-- The edges between consecutive nodes of a sequence, normalised. -/
def consecEdges : List Node → List Edge
  | [] => []
  | [_] => []
  | x :: y :: rest => normEdge x y :: consecEdges (y :: rest)

/-- The cyclic edge list of a node sequence: consecutive pairs plus the
wrap-around pair, normalised. -/
def cyclicEdges : List Node → List Edge
  | [] => []
  | x :: xs => consecEdges (x :: xs) ++ [normEdge ((x :: xs).getLastD 0) x]

def edgeLe (a b : Edge) : Bool := a.1 < b.1 || (a.1 == b.1 && a.2 ≤ b.2)

def insertEdgeSorted (e : Edge) : List Edge → List Edge
  | [] => [e]
  | f :: fs => if edgeLe e f then e :: f :: fs else f :: insertEdgeSorted e fs

def sortEdges (l : List Edge) : List Edge := l.foldr insertEdgeSorted []

/-- Modelled from the spec: structural equality of cycles (`gm.Cycle.__eq__`
/ `__hash__`, not under `src/`): two node sequences denote the same cycle
iff they describe the same edge set (rotation/direction-invariant). -/
def cycleEq (a b : List Node) : Bool :=
  sortEdges (cyclicEdges a) == sortEdges (cyclicEdges b)

/-! ## Data structures of `src/MT.py` -/

/-- `MT_Chordedge` (`src/MT.py` lines 29-66). -/
structure MT_Chordedge where
  node_v : Node
  node_u : Node
  is_in_graph : Bool := false
  cycle_indices : List Nat := []
  induced_cycles : List Nat := []
deriving Repr, DecidableEq, Inhabited

/-- `MT_Chordedge.add_cycle` (line 51-52): appends the cycle id. -/
def MT_Chordedge.add_cycle (c : MT_Chordedge) (cycle_id : Nat) : MT_Chordedge :=
  { c with cycle_indices := c.cycle_indices ++ [cycle_id] }

/-- `MT_Chordedge.get_edge` (line 54-55). -/
def MT_Chordedge.get_edge (c : MT_Chordedge) : Edge := (c.node_v, c.node_u)

/-- `MT_Cycle` (lines 68-95).  `subcycles` is the memo dict
`{chord_edge_id : subcycle_ids}`; `is_in_cycle` models the attribute that
line 229 of `run` creates dynamically (it does not exist at construction,
hence `Option`). -/
structure MT_Cycle where
  cyclenodes : List Node
  chordedge_ids : List Nat := []
  is_in_graph : Bool := true
  subcycles : List (Nat × List Nat) := []
  required_chordedges : List Nat := []
  is_in_cycle : Option Bool := none
deriving Repr, DecidableEq, Inhabited

/-- `MT_Cycle.add_chord` (line 94-95). -/
def MT_Cycle.add_chord (c : MT_Cycle) (chord_id : Nat) : MT_Cycle :=
  { c with chordedge_ids := c.chordedge_ids ++ [chord_id] }

/-! ## Small container helpers (dicts and indexed mutation) -/

/-- Functional update of the `i`-th list entry, as Python's `l[i].f = ...`. -/
def listUpd : List α → Nat → (α → α) → List α
  | [], _, _ => []
  | x :: xs, 0, f => f x :: xs
  | x :: xs, n + 1, f => x :: listUpd xs n f

def assocLookup (l : List (Nat × List Nat)) (k : Nat) : Option (List Nat) :=
  (l.find? (fun p => p.1 == k)).map (fun p => p.2)

/-- `if k not in d: d[k] = []`. -/
def assocSetIfAbsent (l : List (Nat × List Nat)) (k : Nat) : List (Nat × List Nat) :=
  match assocLookup l k with
  | some _ => l
  | none => l ++ [(k, [])]

/-- `d[k].append(v)`. -/
def assocAppend (l : List (Nat × List Nat)) (k : Nat) (v : Nat) : List (Nat × List Nat) :=
  l.map (fun p => if p.1 == k then (p.1, p.2 ++ [v]) else p)

/-- The dict `cycle_ids : {cycle : id}`, keyed by structural cycle equality. -/
def cycleIdsLookup (l : List (List Node × Nat)) (c : List Node) : Option Nat :=
  (l.find? (fun p => cycleEq p.1 c)).map (fun p => p.2)

/-- The nested dict `chord_adjacencies`; both directed pairs are stored,
mirroring the symmetric writes in lines 298-299. -/
def chordAdjLookup (l : List (Node × Node × Nat)) (u w : Node) : Option Nat :=
  (l.find? (fun t => t.1 == u && t.2.1 == w)).map (fun t => t.2.2)

/-! ## The engine state -/

/-- The mutable attributes of `Algorithm_MinimumTriangulation`
(lines 116-126). -/
structure MTState where
  G : Graph
  F : List MT_Chordedge := []
  cycles : List MT_Cycle := []
  cycle_ids : List (List Node × Nat) := []
  number_of_nonchordal_cycles : Int := 0
  chord_adjacencies : List (Node × Node × Nat) := []
  edges_of_triangulation : List Edge := []
deriving Repr, DecidableEq, Inhabited

/-- `get_triangulated` (lines 128-131): a fresh copy of `G` plus the
recorded triangulation edges. -/
def get_triangulated (s : MTState) : Graph :=
  addEdges s.G s.edges_of_triangulation

/-! ## `init_cycle_chord_database_for_cycle` (lines 273-305) -/

/-- One step of the chord-discovery double loop: look the endpoint pair up
in `chord_adjacencies`, registering a fresh `MT_Chordedge` on a miss, then
cross-link chord and cycle. -/
def dbStep (cycle_id : Nat) (cyc : List Node) (s : MTState) (ij : Nat × Nat) : MTState :=
  let u := cyc.getD ij.1 0
  let w := cyc.getD ij.2 0
  let idS : Nat × MTState :=
    match chordAdjLookup s.chord_adjacencies u w with
    | some cid => (cid, s)
    | none =>
      let cid := s.F.length
      (cid, { s with
               chord_adjacencies := s.chord_adjacencies ++ [(u, w, cid), (w, u, cid)],
               F := s.F ++ [{ node_v := u, node_u := w }] })
  let s1 := idS.2
  let s2 := { s1 with F := listUpd s1.F idS.1 (fun f => f.add_cycle cycle_id) }
  { s2 with cycles := listUpd s2.cycles cycle_id (fun c => c.add_chord idS.1) }

def init_cycle_chord_database_for_cycle (cycle_id : Nat) (s : MTState) : MTState :=
  let cyc := (s.cycles.getD cycle_id default).cyclenodes
  (chordPairs cyc.length).foldl (dbStep cycle_id cyc) s

/-! ## `get_subcycles` (lines 369-398) -/

/-- The index-finding loop of `get_subcycles`: `i` starts at `-1` and is
incremented before the comparison, so the result is the last index at which
`x` occurs, or `-1`. -/
def lastIdxAux : List Node → Node → Int → Int → Int
  | [], _, _, cur => cur
  | y :: ys, x, i, cur => lastIdxAux ys x (i + 1) (if y == x then i + 1 else cur)

def lastIdx (l : List Node) (x : Node) : Int := lastIdxAux l x (-1) (-1)

/-- Python slice-endpoint normalisation: negative indices count from the
end, then both ends clamp to `[0, n]`. -/
def pyIdx (n : Nat) (i : Int) : Nat :=
  if i < 0 then (i + n).toNat else min i.toNat n

/-- Python `l[a:b]`. -/
def pySlice (l : List α) (a b : Int) : List α :=
  (l.take (pyIdx l.length b)).drop (pyIdx l.length a)

/-- The node computation of `get_subcycles` on the cycle's node list and the
chord's endpoints: `[cycle[:lo+1] + cycle[hi:], cycle[lo:hi+1]]`. -/
def get_subcycles_nodes (cycle : List Node) (v u : Node) : List (List Node) :=
  let id_v := lastIdx cycle v
  let id_u := lastIdx cycle u
  let lo := min id_v id_u
  let hi := max id_v id_u
  [pySlice cycle 0 (lo + 1) ++ pySlice cycle hi cycle.length,
   pySlice cycle lo (hi + 1)]

def get_subcycles (s : MTState) (cycle_id chord_id : Nat) : List (List Node) :=
  get_subcycles_nodes (s.cycles.getD cycle_id default).cyclenodes
    (s.F.getD chord_id default).node_v (s.F.getD chord_id default).node_u

/-! ## `split_cycle` (lines 307-350) and `merge_cycle` (lines 352-367) -/

/-- Lines 320-322: unconditionally reactivate a memoised subcycle and count
it. -/
def activateSub (s : MTState) (sid : Nat) : MTState :=
  { s with cycles := listUpd s.cycles sid (fun c => { c with is_in_graph := true }),
           number_of_nonchordal_cycles := s.number_of_nonchordal_cycles + 1 }

/-- Line 346: `cycles[cycle_id].subcycles[chord_id].append(sid)`. -/
def appendSubEntry (s : MTState) (cycle_id chord_id sid : Nat) : MTState :=
  { s with cycles := listUpd s.cycles cycle_id (fun c =>
      { c with subcycles := assocAppend c.subcycles chord_id sid }) }

/-- Lines 330-346: handle one of the two computed subcycle node lists. -/
def registerSub (cycle_id chord_id : Nat) (s : MTState) (nodes : List Node) : MTState :=
  if 3 < nodes.length then
    match cycleIdsLookup s.cycle_ids nodes with
    | none =>
      let sid := s.cycles.length
      let s1 := { s with cycles := s.cycles ++ [{ cyclenodes := nodes }],
                         cycle_ids := s.cycle_ids ++ [(nodes, sid)] }
      let s2 := init_cycle_chord_database_for_cycle sid s1
      let s3 := { s2 with number_of_nonchordal_cycles := s2.number_of_nonchordal_cycles + 1 }
      appendSubEntry s3 cycle_id chord_id sid
    | some sid =>
      let s1 := if (s.cycles.getD sid default).is_in_graph then s else activateSub s sid
      appendSubEntry s1 cycle_id chord_id sid
  else s

def split_cycle (s : MTState) (cycle_id chord_id : Nat) : MTState :=
  let s1 :=
    match assocLookup (s.cycles.getD cycle_id default).subcycles chord_id with
    | some subs => subs.foldl activateSub s
    | none =>
      let nodes_new := get_subcycles s cycle_id chord_id
      let s0 := { s with cycles := listUpd s.cycles cycle_id (fun c =>
                   { c with subcycles := assocSetIfAbsent c.subcycles chord_id }) }
      nodes_new.foldl (registerSub cycle_id chord_id) s0
  { s1 with cycles := listUpd s1.cycles cycle_id (fun c => { c with is_in_graph := false }),
            number_of_nonchordal_cycles := s1.number_of_nonchordal_cycles - 1 }

/-- Line 366-367: deactivate a subcycle and uncount it. -/
def deactivateSub (s : MTState) (sid : Nat) : MTState :=
  { s with cycles := listUpd s.cycles sid (fun c => { c with is_in_graph := false }),
           number_of_nonchordal_cycles := s.number_of_nonchordal_cycles - 1 }

def merge_cycle (s : MTState) (chord_id cycle_id : Nat) : MTState :=
  let s1 := { s with cycles := listUpd s.cycles cycle_id (fun c => { c with is_in_graph := true }),
                     number_of_nonchordal_cycles := s.number_of_nonchordal_cycles + 1 }
  ((assocLookup (s1.cycles.getD cycle_id default).subcycles chord_id).getD []).foldl
    deactivateSub s1

/-! ## `get_next_chord` (lines 400-418) -/

def get_next_chord_aux (s : MTState) : Nat → Nat → Int
  | _, 0 => -1
  | cur, fuel + 1 =>
    if cur < s.F.length then
      let f := s.F.getD cur default
      if !f.is_in_graph &&
         f.cycle_indices.any (fun ci => (s.cycles.getD ci default).is_in_graph) then
        (cur : Int)
      else get_next_chord_aux s (cur + 1) fuel
    else -1

def get_next_chord (s : MTState) (cur : Nat) : Int :=
  get_next_chord_aux s cur (s.F.length + 1 - cur)

/-! ## `init_cycle_chord_database` (lines 243-271) -/

/-- Python `max` over the (nonempty) list of cycle lengths. -/
def pyMaxNat (l : List Nat) : Nat := l.foldl max 0

def init_cycle_chord_database (s : MTState) : Except Unit MTState :=
  let cycles := (get_all_cycle_from_cycle_basis s.G).map
    (fun c => ({ cyclenodes := c } : MT_Cycle))
  let s1 := { s with
    cycles := cycles,
    cycle_ids := (List.range cycles.length).map
      (fun i => ((cycles.getD i default).cyclenodes, i)) }
  if 0 < s1.cycles.length ∧ 16 < pyMaxNat (s1.cycles.map (fun c => c.cyclenodes.length)) then
    Except.error ()
  else
    let s2 := { s1 with number_of_nonchordal_cycles := (s1.cycles.length : Int) }
    Except.ok ((List.range s2.cycles.length).foldl
      (fun st i => init_cycle_chord_database_for_cycle i st) s2)

/-! ## The main loop of `run` (lines 133-241) -/

/-- The loop-local variables of `run` together with the engine state, plus
a `terminated` flag and an iteration counter for the fuel embedding. -/
structure LoopState where
  db : MTState
  current_chord_id : Nat
  chord_stack : List (Nat × List Nat)
  minimum_triangulation_size : Int
  minimum_triangulation_chordset : List MT_Chordedge
  terminated : Bool
  iterations : Nat
deriving Repr, DecidableEq, Inhabited

/-- Lines 199-209: recompute the cycles of `G` plus all included chords and
register the previously unseen ones as cycles induced by `chord_id`.  Note
that `cycle_ids` is not updated and `number_of_nonchordal_cycles` is not
incremented for them. -/
def recomputeRegister (chord_id : Nat) (s : MTState) : MTState :=
  let gTemp := addEdges s.G ((s.F.filter (fun f => f.is_in_graph)).map MT_Chordedge.get_edge)
  (get_all_cycle_from_cycle_basis gTemp).foldl (fun st c =>
    if st.cycles.any (fun ex => cycleEq ex.cyclenodes c) then st
    else
      let nid := st.cycles.length
      let st1 := { st with
        cycles := st.cycles ++ [{ cyclenodes := c }],
        F := listUpd st.F chord_id (fun f =>
          { f with induced_cycles := f.induced_cycles ++ [nid] }) }
      init_cycle_chord_database_for_cycle nid st1) s

/-- The body of `for cycle_id in cycles_to_split` (lines 195-217): split,
mark the chord included, recompute/register cycles, and record the current
chord set if the counter reads zero and improves the minimum. -/
def forwardCycleStep (chord_id : Nat) (ls : LoopState) (cycle_id : Nat) : LoopState :=
  let s1 := split_cycle ls.db cycle_id chord_id
  let s2 := { s1 with F := listUpd s1.F chord_id (fun f => { f with is_in_graph := true }) }
  let s3 := recomputeRegister chord_id s2
  if s3.number_of_nonchordal_cycles == 0 then
    let included := s3.F.filter (fun f => f.is_in_graph)
    if ls.minimum_triangulation_size < 0 ∨
       (included.length : Int) < ls.minimum_triangulation_size then
      { ls with db := s3,
                minimum_triangulation_size := (included.length : Int),
                minimum_triangulation_chordset := included }
    else { ls with db := s3 }
  else { ls with db := s3 }

/-- The forward (include) branch (lines 191-217). -/
def forwardStep (chord_id : Nat) (ls : LoopState) : LoopState :=
  let cycles_to_split := (ls.db.F.getD chord_id default).cycle_indices.filter
      (fun ci => (ls.db.cycles.getD ci default).is_in_graph)
  let ls1 := { ls with chord_stack := ls.chord_stack ++ [(chord_id, cycles_to_split)] }
  cycles_to_split.foldl (forwardCycleStep chord_id) ls1

/-- Lines 228-231: mark an induced cycle with the (misspelt) `is_in_cycle`
attribute and remove it from its chords' `cycle_indices`. -/
def removeInducedLinks (s : MTState) (cycle_id : Nat) : MTState :=
  let s1 := { s with cycles := listUpd s.cycles cycle_id (fun c =>
      { c with is_in_cycle := some false }) }
  (s1.cycles.getD cycle_id default).chordedge_ids.foldl (fun st ch =>
    { st with F := listUpd st.F ch (fun f =>
        { f with cycle_indices := f.cycle_indices.erase cycle_id }) }) s1

/-- The backward (exclude) branch (lines 219-235). -/
def backwardStep (ls : LoopState) : LoopState :=
  match ls.chord_stack.getLast? with
  | none => ls
  | some (chord_id, last_split) =>
    let stack := ls.chord_stack.dropLast
    let s1 := last_split.foldl (fun st ci => merge_cycle st chord_id ci) ls.db
    let s2 := (s1.F.getD chord_id default).induced_cycles.foldl removeInducedLinks s1
    let s3 := { s2 with F := listUpd s2.F chord_id (fun f =>
        { f with induced_cycles := [] }) }
    let s4 := { s3 with F := listUpd s3.F chord_id (fun f =>
        { f with is_in_graph := false }) }
    { ls with db := s4, chord_stack := stack, current_chord_id := chord_id + 1 }

/-- One iteration of the `while not terminated` loop (lines 160-239). -/
def loopIter (ls : LoopState) : LoopState :=
  let next := get_next_chord ls.db ls.current_chord_id
  let ls1 :=
    if (ls.db.F.length : Int) ≤ next then { ls with terminated := true }
    else if 0 ≤ next then forwardStep next.toNat { ls with current_chord_id := next.toNat }
    else if 0 < ls.chord_stack.length then backwardStep ls
    else { ls with terminated := true }
  { ls1 with iterations := ls.iterations + 1 }

def runLoop : Nat → LoopState → LoopState
  | 0, ls => ls
  | fuel + 1, ls => if ls.terminated then ls else runLoop fuel (loopIter ls)

/-- The loop-local variables of `run` as initialised in lines 144-159,
around an already-initialised engine state. -/
def initLoopState (g : Graph) (s : MTState) : LoopState := {
  db := s
  current_chord_id := 0
  chord_stack := []
  minimum_triangulation_size := -1
  minimum_triangulation_chordset := []
  terminated := is_chordal g || s.cycles.length == 0
  iterations := 0 }

/-- `run` (lines 133-241), with the loop cut off after `fuel` iterations.
A result whose `terminated` flag is set is the state in which the Python
loop exits. -/
def run (g : Graph) (fuel : Nat) : Except Unit LoopState :=
  match init_cycle_chord_database { G := g } with
  | Except.error e => Except.error e
  | Except.ok s =>
    let ls1 := runLoop fuel (initLoopState g s)
    Except.ok { ls1 with db := { ls1.db with
      edges_of_triangulation := ls1.minimum_triangulation_chordset.map MT_Chordedge.get_edge } }

/-! ## Concrete inputs used in the analysis -/

/-- The simple cycle on nodes `1, …, k`. -/
def cycleGraph (k : Nat) : Graph :=
  ((List.range (k - 1)).map (fun i => (i + 1, i + 2))) ++ [(1, k)]

/-- A 6-node graph on which chord inclusion makes previously invisible
chordless cycles appear: a 4-cycle `1-2-3-4` with a second path `1-5-6-3`
between the opposite nodes `1` and `3`, plus the edges `2-5` and `4-6`,
which give the cycles through that path chords until `(1,3)` is inserted. -/
def G_ind : Graph := [(1,2),(2,3),(3,4),(1,4),(1,5),(5,6),(3,6),(2,5),(4,6)]

/-- The engine state after `init_cycle_chord_database`, for inputs on which
initialisation does not raise. -/
def initState (g : Graph) : MTState :=
  (init_cycle_chord_database { G := g }).toOption.getD default

/-- The loop state after at most `fuel` iterations of the main loop (the
default state when initialisation raises). -/
def runState (g : Graph) (fuel : Nat) : LoopState :=
  (run g fuel).toOption.getD default

/-! ### Staged evaluation of the engine on `G_ind`

The 63-iteration run of the main loop on `G_ind` is evaluated in seven
stages of nine iterations each; the intermediate loop states are recorded
literally, so no single theorem ever evaluates more than nine loop
iterations at once. -/

/-- The engine state on `G_ind` right after `init_cycle_chord_database`. -/
def G_ind_init : MTState :=
  { G := [(1, 2), (2, 3), (3, 4), (1, 4), (1, 5), (5, 6), (3, 6), (2, 5), (4, 6)],
    F := [{ node_v := 1, node_u := 3, is_in_graph := false, cycle_indices := [0], induced_cycles := [] },
          { node_v := 2, node_u := 4, is_in_graph := false, cycle_indices := [0], induced_cycles := [] },
          { node_v := 1, node_u := 6, is_in_graph := false, cycle_indices := [1], induced_cycles := [] },
          { node_v := 4, node_u := 5, is_in_graph := false, cycle_indices := [1], induced_cycles := [] },
          { node_v := 2, node_u := 6, is_in_graph := false, cycle_indices := [2], induced_cycles := [] },
          { node_v := 3, node_u := 5, is_in_graph := false, cycle_indices := [2], induced_cycles := [] }],
    cycles := [{ cyclenodes := [1, 2, 3, 4],
                 chordedge_ids := [0, 1],
                 is_in_graph := true,
                 subcycles := [],
                 required_chordedges := [],
                 is_in_cycle := none },
               { cyclenodes := [1, 4, 6, 5],
                 chordedge_ids := [2, 3],
                 is_in_graph := true,
                 subcycles := [],
                 required_chordedges := [],
                 is_in_cycle := none },
               { cyclenodes := [2, 3, 6, 5],
                 chordedge_ids := [4, 5],
                 is_in_graph := true,
                 subcycles := [],
                 required_chordedges := [],
                 is_in_cycle := none }],
    cycle_ids := [([1, 2, 3, 4], 0), ([1, 4, 6, 5], 1), ([2, 3, 6, 5], 2)],
    number_of_nonchordal_cycles := 3,
    chord_adjacencies := [(1, 3, 0),
                          (3, 1, 0),
                          (2, 4, 1),
                          (4, 2, 1),
                          (1, 6, 2),
                          (6, 1, 2),
                          (4, 5, 3),
                          (5, 4, 3),
                          (2, 6, 4),
                          (6, 2, 4),
                          (3, 5, 5),
                          (5, 3, 5)],
    edges_of_triangulation := [] }

/-- The loop state of the engine on `G_ind` after 9 iterations of the main loop. -/
def G_ind_S9 : LoopState :=
  { db := { G := [(1, 2), (2, 3), (3, 4), (1, 4), (1, 5), (5, 6), (3, 6), (2, 5), (4, 6)],
            F := [{ node_v := 1, node_u := 3, is_in_graph := true, cycle_indices := [0], induced_cycles := [3] },
                  { node_v := 2, node_u := 4, is_in_graph := false, cycle_indices := [0, 4, 5], induced_cycles := [] },
                  { node_v := 1, node_u := 6, is_in_graph := false, cycle_indices := [1, 3, 5], induced_cycles := [] },
                  { node_v := 4, node_u := 5, is_in_graph := true, cycle_indices := [1], induced_cycles := [4] },
                  { node_v := 2, node_u := 6, is_in_graph := true, cycle_indices := [2], induced_cycles := [5] },
                  { node_v := 3, node_u := 5, is_in_graph := false, cycle_indices := [2, 3, 4], induced_cycles := [] }],
            cycles := [{ cyclenodes := [1, 2, 3, 4],
                         chordedge_ids := [0, 1],
                         is_in_graph := false,
                         subcycles := [(0, [])],
                         required_chordedges := [],
                         is_in_cycle := none },
                       { cyclenodes := [1, 4, 6, 5],
                         chordedge_ids := [2, 3],
                         is_in_graph := false,
                         subcycles := [(2, []), (3, [])],
                         required_chordedges := [],
                         is_in_cycle := none },
                       { cyclenodes := [2, 3, 6, 5],
                         chordedge_ids := [4, 5],
                         is_in_graph := false,
                         subcycles := [(4, []), (5, [])],
                         required_chordedges := [],
                         is_in_cycle := none },
                       { cyclenodes := [1, 3, 6, 5],
                         chordedge_ids := [2, 5],
                         is_in_graph := true,
                         subcycles := [(2, [])],
                         required_chordedges := [],
                         is_in_cycle := none },
                       { cyclenodes := [2, 3, 4, 5],
                         chordedge_ids := [1, 5],
                         is_in_graph := true,
                         subcycles := [],
                         required_chordedges := [],
                         is_in_cycle := none },
                       { cyclenodes := [1, 2, 6, 4],
                         chordedge_ids := [2, 1],
                         is_in_graph := true,
                         subcycles := [],
                         required_chordedges := [],
                         is_in_cycle := none }],
            cycle_ids := [([1, 2, 3, 4], 0), ([1, 4, 6, 5], 1), ([2, 3, 6, 5], 2)],
            number_of_nonchordal_cycles := 0,
            chord_adjacencies := [(1, 3, 0),
                                  (3, 1, 0),
                                  (2, 4, 1),
                                  (4, 2, 1),
                                  (1, 6, 2),
                                  (6, 1, 2),
                                  (4, 5, 3),
                                  (5, 4, 3),
                                  (2, 6, 4),
                                  (6, 2, 4),
                                  (3, 5, 5),
                                  (5, 3, 5)],
            edges_of_triangulation := [] },
    current_chord_id := 4,
    chord_stack := [(0, [0]), (3, [1]), (4, [2])],
    minimum_triangulation_size := 2,
    minimum_triangulation_chordset := [{ node_v := 1,
                                         node_u := 3,
                                         is_in_graph := true,
                                         cycle_indices := [0],
                                         induced_cycles := [3] },
                                       { node_v := 1,
                                         node_u := 6,
                                         is_in_graph := true,
                                         cycle_indices := [1, 3],
                                         induced_cycles := [] }],
    terminated := false,
    iterations := 9 }

/-- The loop state of the engine on `G_ind` after 18 iterations of the main loop. -/
def G_ind_S18 : LoopState :=
  { db := { G := [(1, 2), (2, 3), (3, 4), (1, 4), (1, 5), (5, 6), (3, 6), (2, 5), (4, 6)],
            F := [{ node_v := 1, node_u := 3, is_in_graph := true, cycle_indices := [0], induced_cycles := [3] },
                  { node_v := 2, node_u := 4, is_in_graph := false, cycle_indices := [0], induced_cycles := [] },
                  { node_v := 1, node_u := 6, is_in_graph := false, cycle_indices := [1, 3], induced_cycles := [] },
                  { node_v := 4, node_u := 5, is_in_graph := false, cycle_indices := [1], induced_cycles := [] },
                  { node_v := 2, node_u := 6, is_in_graph := true, cycle_indices := [2], induced_cycles := [] },
                  { node_v := 3, node_u := 5, is_in_graph := false, cycle_indices := [2, 3], induced_cycles := [] }],
            cycles := [{ cyclenodes := [1, 2, 3, 4],
                         chordedge_ids := [0, 1],
                         is_in_graph := false,
                         subcycles := [(0, [])],
                         required_chordedges := [],
                         is_in_cycle := none },
                       { cyclenodes := [1, 4, 6, 5],
                         chordedge_ids := [2, 3],
                         is_in_graph := true,
                         subcycles := [(2, []), (3, [])],
                         required_chordedges := [],
                         is_in_cycle := none },
                       { cyclenodes := [2, 3, 6, 5],
                         chordedge_ids := [4, 5],
                         is_in_graph := false,
                         subcycles := [(4, []), (5, [])],
                         required_chordedges := [],
                         is_in_cycle := none },
                       { cyclenodes := [1, 3, 6, 5],
                         chordedge_ids := [2, 5],
                         is_in_graph := true,
                         subcycles := [(2, []), (5, [])],
                         required_chordedges := [],
                         is_in_cycle := none },
                       { cyclenodes := [2, 3, 4, 5],
                         chordedge_ids := [1, 5],
                         is_in_graph := true,
                         subcycles := [(5, [])],
                         required_chordedges := [],
                         is_in_cycle := some false },
                       { cyclenodes := [1, 2, 6, 4],
                         chordedge_ids := [2, 1],
                         is_in_graph := true,
                         subcycles := [],
                         required_chordedges := [],
                         is_in_cycle := some false }],
            cycle_ids := [([1, 2, 3, 4], 0), ([1, 4, 6, 5], 1), ([2, 3, 6, 5], 2)],
            number_of_nonchordal_cycles := 1,
            chord_adjacencies := [(1, 3, 0),
                                  (3, 1, 0),
                                  (2, 4, 1),
                                  (4, 2, 1),
                                  (1, 6, 2),
                                  (6, 1, 2),
                                  (4, 5, 3),
                                  (5, 4, 3),
                                  (2, 6, 4),
                                  (6, 2, 4),
                                  (3, 5, 5),
                                  (5, 3, 5)],
            edges_of_triangulation := [] },
    current_chord_id := 6,
    chord_stack := [(0, [0]), (4, [2])],
    minimum_triangulation_size := 2,
    minimum_triangulation_chordset := [{ node_v := 1,
                                         node_u := 3,
                                         is_in_graph := true,
                                         cycle_indices := [0],
                                         induced_cycles := [3] },
                                       { node_v := 1,
                                         node_u := 6,
                                         is_in_graph := true,
                                         cycle_indices := [1, 3],
                                         induced_cycles := [] }],
    terminated := false,
    iterations := 18 }

/-- The loop state of the engine on `G_ind` after 27 iterations of the main loop. -/
def G_ind_S27 : LoopState :=
  { db := { G := [(1, 2), (2, 3), (3, 4), (1, 4), (1, 5), (5, 6), (3, 6), (2, 5), (4, 6)],
            F := [{ node_v := 1, node_u := 3, is_in_graph := false, cycle_indices := [0, 7], induced_cycles := [] },
                  { node_v := 2, node_u := 4, is_in_graph := true, cycle_indices := [0], induced_cycles := [6] },
                  { node_v := 1, node_u := 6, is_in_graph := true, cycle_indices := [1], induced_cycles := [7] },
                  { node_v := 4, node_u := 5, is_in_graph := true, cycle_indices := [1, 6], induced_cycles := [] },
                  { node_v := 2, node_u := 6, is_in_graph := false, cycle_indices := [2, 6, 7], induced_cycles := [] },
                  { node_v := 3, node_u := 5, is_in_graph := false, cycle_indices := [2], induced_cycles := [] }],
            cycles := [{ cyclenodes := [1, 2, 3, 4],
                         chordedge_ids := [0, 1],
                         is_in_graph := false,
                         subcycles := [(0, []), (1, [])],
                         required_chordedges := [],
                         is_in_cycle := none },
                       { cyclenodes := [1, 4, 6, 5],
                         chordedge_ids := [2, 3],
                         is_in_graph := false,
                         subcycles := [(2, []), (3, [])],
                         required_chordedges := [],
                         is_in_cycle := none },
                       { cyclenodes := [2, 3, 6, 5],
                         chordedge_ids := [4, 5],
                         is_in_graph := true,
                         subcycles := [(4, []), (5, [])],
                         required_chordedges := [],
                         is_in_cycle := none },
                       { cyclenodes := [1, 3, 6, 5],
                         chordedge_ids := [2, 5],
                         is_in_graph := true,
                         subcycles := [(2, []), (5, [])],
                         required_chordedges := [],
                         is_in_cycle := some false },
                       { cyclenodes := [2, 3, 4, 5],
                         chordedge_ids := [1, 5],
                         is_in_graph := true,
                         subcycles := [(5, [])],
                         required_chordedges := [],
                         is_in_cycle := some false },
                       { cyclenodes := [1, 2, 6, 4],
                         chordedge_ids := [2, 1],
                         is_in_graph := true,
                         subcycles := [],
                         required_chordedges := [],
                         is_in_cycle := some false },
                       { cyclenodes := [2, 4, 6, 5],
                         chordedge_ids := [4, 3],
                         is_in_graph := false,
                         subcycles := [(3, [])],
                         required_chordedges := [],
                         is_in_cycle := none },
                       { cyclenodes := [1, 2, 3, 6],
                         chordedge_ids := [0, 4],
                         is_in_graph := true,
                         subcycles := [(4, [])],
                         required_chordedges := [],
                         is_in_cycle := none }],
            cycle_ids := [([1, 2, 3, 4], 0), ([1, 4, 6, 5], 1), ([2, 3, 6, 5], 2)],
            number_of_nonchordal_cycles := 0,
            chord_adjacencies := [(1, 3, 0),
                                  (3, 1, 0),
                                  (2, 4, 1),
                                  (4, 2, 1),
                                  (1, 6, 2),
                                  (6, 1, 2),
                                  (4, 5, 3),
                                  (5, 4, 3),
                                  (2, 6, 4),
                                  (6, 2, 4),
                                  (3, 5, 5),
                                  (5, 3, 5)],
            edges_of_triangulation := [] },
    current_chord_id := 5,
    chord_stack := [(1, [0]), (2, [1]), (3, [6])],
    minimum_triangulation_size := 2,
    minimum_triangulation_chordset := [{ node_v := 1,
                                         node_u := 3,
                                         is_in_graph := true,
                                         cycle_indices := [0],
                                         induced_cycles := [3] },
                                       { node_v := 1,
                                         node_u := 6,
                                         is_in_graph := true,
                                         cycle_indices := [1, 3],
                                         induced_cycles := [] }],
    terminated := false,
    iterations := 27 }

/-- The loop state of the engine on `G_ind` after 36 iterations of the main loop. -/
def G_ind_S36 : LoopState :=
  { db := { G := [(1, 2), (2, 3), (3, 4), (1, 4), (1, 5), (5, 6), (3, 6), (2, 5), (4, 6)],
            F := [{ node_v := 1, node_u := 3, is_in_graph := false, cycle_indices := [0], induced_cycles := [] },
                  { node_v := 2, node_u := 4, is_in_graph := true, cycle_indices := [0], induced_cycles := [6] },
                  { node_v := 1, node_u := 6, is_in_graph := false, cycle_indices := [1], induced_cycles := [] },
                  { node_v := 4, node_u := 5, is_in_graph := true, cycle_indices := [1, 6], induced_cycles := [] },
                  { node_v := 2, node_u := 6, is_in_graph := false, cycle_indices := [2, 6], induced_cycles := [] },
                  { node_v := 3, node_u := 5, is_in_graph := false, cycle_indices := [2], induced_cycles := [] }],
            cycles := [{ cyclenodes := [1, 2, 3, 4],
                         chordedge_ids := [0, 1],
                         is_in_graph := false,
                         subcycles := [(0, []), (1, [])],
                         required_chordedges := [],
                         is_in_cycle := none },
                       { cyclenodes := [1, 4, 6, 5],
                         chordedge_ids := [2, 3],
                         is_in_graph := false,
                         subcycles := [(2, []), (3, [])],
                         required_chordedges := [],
                         is_in_cycle := none },
                       { cyclenodes := [2, 3, 6, 5],
                         chordedge_ids := [4, 5],
                         is_in_graph := true,
                         subcycles := [(4, []), (5, [])],
                         required_chordedges := [],
                         is_in_cycle := none },
                       { cyclenodes := [1, 3, 6, 5],
                         chordedge_ids := [2, 5],
                         is_in_graph := true,
                         subcycles := [(2, []), (5, [])],
                         required_chordedges := [],
                         is_in_cycle := some false },
                       { cyclenodes := [2, 3, 4, 5],
                         chordedge_ids := [1, 5],
                         is_in_graph := true,
                         subcycles := [(5, [])],
                         required_chordedges := [],
                         is_in_cycle := some false },
                       { cyclenodes := [1, 2, 6, 4],
                         chordedge_ids := [2, 1],
                         is_in_graph := true,
                         subcycles := [],
                         required_chordedges := [],
                         is_in_cycle := some false },
                       { cyclenodes := [2, 4, 6, 5],
                         chordedge_ids := [4, 3],
                         is_in_graph := false,
                         subcycles := [(3, []), (4, [])],
                         required_chordedges := [],
                         is_in_cycle := none },
                       { cyclenodes := [1, 2, 3, 6],
                         chordedge_ids := [0, 4],
                         is_in_graph := true,
                         subcycles := [(4, [])],
                         required_chordedges := [],
                         is_in_cycle := some false },
                       { cyclenodes := [1, 4, 3, 5],
                         chordedge_ids := [0, 3],
                         is_in_graph := true,
                         subcycles := [],
                         required_chordedges := [],
                         is_in_cycle := some false }],
            cycle_ids := [([1, 2, 3, 4], 0), ([1, 4, 6, 5], 1), ([2, 3, 6, 5], 2)],
            number_of_nonchordal_cycles := 0,
            chord_adjacencies := [(1, 3, 0),
                                  (3, 1, 0),
                                  (2, 4, 1),
                                  (4, 2, 1),
                                  (1, 6, 2),
                                  (6, 1, 2),
                                  (4, 5, 3),
                                  (5, 4, 3),
                                  (2, 6, 4),
                                  (6, 2, 4),
                                  (3, 5, 5),
                                  (5, 3, 5)],
            edges_of_triangulation := [] },
    current_chord_id := 3,
    chord_stack := [(1, [0]), (3, [1, 6])],
    minimum_triangulation_size := 2,
    minimum_triangulation_chordset := [{ node_v := 1,
                                         node_u := 3,
                                         is_in_graph := true,
                                         cycle_indices := [0],
                                         induced_cycles := [3] },
                                       { node_v := 1,
                                         node_u := 6,
                                         is_in_graph := true,
                                         cycle_indices := [1, 3],
                                         induced_cycles := [] }],
    terminated := false,
    iterations := 36 }

/-- The loop state of the engine on `G_ind` after 45 iterations of the main loop. -/
def G_ind_S45 : LoopState :=
  { db := { G := [(1, 2), (2, 3), (3, 4), (1, 4), (1, 5), (5, 6), (3, 6), (2, 5), (4, 6)],
            F := [{ node_v := 1, node_u := 3, is_in_graph := false, cycle_indices := [0], induced_cycles := [] },
                  { node_v := 2, node_u := 4, is_in_graph := true, cycle_indices := [0], induced_cycles := [6] },
                  { node_v := 1, node_u := 6, is_in_graph := false, cycle_indices := [1], induced_cycles := [] },
                  { node_v := 4, node_u := 5, is_in_graph := false, cycle_indices := [1, 6], induced_cycles := [] },
                  { node_v := 2, node_u := 6, is_in_graph := false, cycle_indices := [2, 6], induced_cycles := [] },
                  { node_v := 3, node_u := 5, is_in_graph := false, cycle_indices := [2], induced_cycles := [] }],
            cycles := [{ cyclenodes := [1, 2, 3, 4],
                         chordedge_ids := [0, 1],
                         is_in_graph := false,
                         subcycles := [(0, []), (1, [])],
                         required_chordedges := [],
                         is_in_cycle := none },
                       { cyclenodes := [1, 4, 6, 5],
                         chordedge_ids := [2, 3],
                         is_in_graph := true,
                         subcycles := [(2, []), (3, [])],
                         required_chordedges := [],
                         is_in_cycle := none },
                       { cyclenodes := [2, 3, 6, 5],
                         chordedge_ids := [4, 5],
                         is_in_graph := true,
                         subcycles := [(4, []), (5, [])],
                         required_chordedges := [],
                         is_in_cycle := none },
                       { cyclenodes := [1, 3, 6, 5],
                         chordedge_ids := [2, 5],
                         is_in_graph := true,
                         subcycles := [(2, []), (5, [])],
                         required_chordedges := [],
                         is_in_cycle := some false },
                       { cyclenodes := [2, 3, 4, 5],
                         chordedge_ids := [1, 5],
                         is_in_graph := true,
                         subcycles := [(5, [])],
                         required_chordedges := [],
                         is_in_cycle := some false },
                       { cyclenodes := [1, 2, 6, 4],
                         chordedge_ids := [2, 1],
                         is_in_graph := true,
                         subcycles := [],
                         required_chordedges := [],
                         is_in_cycle := some false },
                       { cyclenodes := [2, 4, 6, 5],
                         chordedge_ids := [4, 3],
                         is_in_graph := true,
                         subcycles := [(3, []), (4, [])],
                         required_chordedges := [],
                         is_in_cycle := none },
                       { cyclenodes := [1, 2, 3, 6],
                         chordedge_ids := [0, 4],
                         is_in_graph := true,
                         subcycles := [(4, [])],
                         required_chordedges := [],
                         is_in_cycle := some false },
                       { cyclenodes := [1, 4, 3, 5],
                         chordedge_ids := [0, 3],
                         is_in_graph := true,
                         subcycles := [],
                         required_chordedges := [],
                         is_in_cycle := some false }],
            cycle_ids := [([1, 2, 3, 4], 0), ([1, 4, 6, 5], 1), ([2, 3, 6, 5], 2)],
            number_of_nonchordal_cycles := 2,
            chord_adjacencies := [(1, 3, 0),
                                  (3, 1, 0),
                                  (2, 4, 1),
                                  (4, 2, 1),
                                  (1, 6, 2),
                                  (6, 1, 2),
                                  (4, 5, 3),
                                  (5, 4, 3),
                                  (2, 6, 4),
                                  (6, 2, 4),
                                  (3, 5, 5),
                                  (5, 3, 5)],
            edges_of_triangulation := [] },
    current_chord_id := 6,
    chord_stack := [(1, [0])],
    minimum_triangulation_size := 2,
    minimum_triangulation_chordset := [{ node_v := 1,
                                         node_u := 3,
                                         is_in_graph := true,
                                         cycle_indices := [0],
                                         induced_cycles := [3] },
                                       { node_v := 1,
                                         node_u := 6,
                                         is_in_graph := true,
                                         cycle_indices := [1, 3],
                                         induced_cycles := [] }],
    terminated := false,
    iterations := 45 }

/-- The loop state of the engine on `G_ind` after 54 iterations of the main loop. -/
def G_ind_S54 : LoopState :=
  { db := { G := [(1, 2), (2, 3), (3, 4), (1, 4), (1, 5), (5, 6), (3, 6), (2, 5), (4, 6)],
            F := [{ node_v := 1, node_u := 3, is_in_graph := false, cycle_indices := [0], induced_cycles := [] },
                  { node_v := 2, node_u := 4, is_in_graph := false, cycle_indices := [0], induced_cycles := [] },
                  { node_v := 1, node_u := 6, is_in_graph := false, cycle_indices := [1], induced_cycles := [] },
                  { node_v := 4, node_u := 5, is_in_graph := true, cycle_indices := [1], induced_cycles := [] },
                  { node_v := 2, node_u := 6, is_in_graph := true, cycle_indices := [2], induced_cycles := [] },
                  { node_v := 3, node_u := 5, is_in_graph := false, cycle_indices := [2], induced_cycles := [] }],
            cycles := [{ cyclenodes := [1, 2, 3, 4],
                         chordedge_ids := [0, 1],
                         is_in_graph := true,
                         subcycles := [(0, []), (1, [])],
                         required_chordedges := [],
                         is_in_cycle := none },
                       { cyclenodes := [1, 4, 6, 5],
                         chordedge_ids := [2, 3],
                         is_in_graph := false,
                         subcycles := [(2, []), (3, [])],
                         required_chordedges := [],
                         is_in_cycle := none },
                       { cyclenodes := [2, 3, 6, 5],
                         chordedge_ids := [4, 5],
                         is_in_graph := false,
                         subcycles := [(4, []), (5, [])],
                         required_chordedges := [],
                         is_in_cycle := none },
                       { cyclenodes := [1, 3, 6, 5],
                         chordedge_ids := [2, 5],
                         is_in_graph := true,
                         subcycles := [(2, []), (5, [])],
                         required_chordedges := [],
                         is_in_cycle := some false },
                       { cyclenodes := [2, 3, 4, 5],
                         chordedge_ids := [1, 5],
                         is_in_graph := true,
                         subcycles := [(5, [])],
                         required_chordedges := [],
                         is_in_cycle := some false },
                       { cyclenodes := [1, 2, 6, 4],
                         chordedge_ids := [2, 1],
                         is_in_graph := true,
                         subcycles := [],
                         required_chordedges := [],
                         is_in_cycle := some false },
                       { cyclenodes := [2, 4, 6, 5],
                         chordedge_ids := [4, 3],
                         is_in_graph := true,
                         subcycles := [(3, []), (4, [])],
                         required_chordedges := [],
                         is_in_cycle := some false },
                       { cyclenodes := [1, 2, 3, 6],
                         chordedge_ids := [0, 4],
                         is_in_graph := true,
                         subcycles := [(4, [])],
                         required_chordedges := [],
                         is_in_cycle := some false },
                       { cyclenodes := [1, 4, 3, 5],
                         chordedge_ids := [0, 3],
                         is_in_graph := true,
                         subcycles := [],
                         required_chordedges := [],
                         is_in_cycle := some false }],
            cycle_ids := [([1, 2, 3, 4], 0), ([1, 4, 6, 5], 1), ([2, 3, 6, 5], 2)],
            number_of_nonchordal_cycles := 1,
            chord_adjacencies := [(1, 3, 0),
                                  (3, 1, 0),
                                  (2, 4, 1),
                                  (4, 2, 1),
                                  (1, 6, 2),
                                  (6, 1, 2),
                                  (4, 5, 3),
                                  (5, 4, 3),
                                  (2, 6, 4),
                                  (6, 2, 4),
                                  (3, 5, 5),
                                  (5, 3, 5)],
            edges_of_triangulation := [] },
    current_chord_id := 4,
    chord_stack := [(3, [1]), (4, [2])],
    minimum_triangulation_size := 2,
    minimum_triangulation_chordset := [{ node_v := 1,
                                         node_u := 3,
                                         is_in_graph := true,
                                         cycle_indices := [0],
                                         induced_cycles := [3] },
                                       { node_v := 1,
                                         node_u := 6,
                                         is_in_graph := true,
                                         cycle_indices := [1, 3],
                                         induced_cycles := [] }],
    terminated := false,
    iterations := 54 }

/-- The final state returned by `run` on `G_ind` (63 iterations, terminated). -/
def G_ind_final : LoopState :=
  { db := { G := [(1, 2), (2, 3), (3, 4), (1, 4), (1, 5), (5, 6), (3, 6), (2, 5), (4, 6)],
            F := [{ node_v := 1, node_u := 3, is_in_graph := false, cycle_indices := [0], induced_cycles := [] },
                  { node_v := 2, node_u := 4, is_in_graph := false, cycle_indices := [0], induced_cycles := [] },
                  { node_v := 1, node_u := 6, is_in_graph := false, cycle_indices := [1], induced_cycles := [] },
                  { node_v := 4, node_u := 5, is_in_graph := false, cycle_indices := [1], induced_cycles := [] },
                  { node_v := 2, node_u := 6, is_in_graph := false, cycle_indices := [2], induced_cycles := [] },
                  { node_v := 3, node_u := 5, is_in_graph := false, cycle_indices := [2], induced_cycles := [] }],
            cycles := [{ cyclenodes := [1, 2, 3, 4],
                         chordedge_ids := [0, 1],
                         is_in_graph := true,
                         subcycles := [(0, []), (1, [])],
                         required_chordedges := [],
                         is_in_cycle := none },
                       { cyclenodes := [1, 4, 6, 5],
                         chordedge_ids := [2, 3],
                         is_in_graph := true,
                         subcycles := [(2, []), (3, [])],
                         required_chordedges := [],
                         is_in_cycle := none },
                       { cyclenodes := [2, 3, 6, 5],
                         chordedge_ids := [4, 5],
                         is_in_graph := true,
                         subcycles := [(4, []), (5, [])],
                         required_chordedges := [],
                         is_in_cycle := none },
                       { cyclenodes := [1, 3, 6, 5],
                         chordedge_ids := [2, 5],
                         is_in_graph := true,
                         subcycles := [(2, []), (5, [])],
                         required_chordedges := [],
                         is_in_cycle := some false },
                       { cyclenodes := [2, 3, 4, 5],
                         chordedge_ids := [1, 5],
                         is_in_graph := true,
                         subcycles := [(5, [])],
                         required_chordedges := [],
                         is_in_cycle := some false },
                       { cyclenodes := [1, 2, 6, 4],
                         chordedge_ids := [2, 1],
                         is_in_graph := true,
                         subcycles := [],
                         required_chordedges := [],
                         is_in_cycle := some false },
                       { cyclenodes := [2, 4, 6, 5],
                         chordedge_ids := [4, 3],
                         is_in_graph := true,
                         subcycles := [(3, []), (4, [])],
                         required_chordedges := [],
                         is_in_cycle := some false },
                       { cyclenodes := [1, 2, 3, 6],
                         chordedge_ids := [0, 4],
                         is_in_graph := true,
                         subcycles := [(4, [])],
                         required_chordedges := [],
                         is_in_cycle := some false },
                       { cyclenodes := [1, 4, 3, 5],
                         chordedge_ids := [0, 3],
                         is_in_graph := true,
                         subcycles := [],
                         required_chordedges := [],
                         is_in_cycle := some false }],
            cycle_ids := [([1, 2, 3, 4], 0), ([1, 4, 6, 5], 1), ([2, 3, 6, 5], 2)],
            number_of_nonchordal_cycles := 3,
            chord_adjacencies := [(1, 3, 0),
                                  (3, 1, 0),
                                  (2, 4, 1),
                                  (4, 2, 1),
                                  (1, 6, 2),
                                  (6, 1, 2),
                                  (4, 5, 3),
                                  (5, 4, 3),
                                  (2, 6, 4),
                                  (6, 2, 4),
                                  (3, 5, 5),
                                  (5, 3, 5)],
            edges_of_triangulation := [(1, 3), (1, 6)] },
    current_chord_id := 6,
    chord_stack := [],
    minimum_triangulation_size := 2,
    minimum_triangulation_chordset := [{ node_v := 1,
                                         node_u := 3,
                                         is_in_graph := true,
                                         cycle_indices := [0],
                                         induced_cycles := [3] },
                                       { node_v := 1,
                                         node_u := 6,
                                         is_in_graph := true,
                                         cycle_indices := [1, 3],
                                         induced_cycles := [] }],
    terminated := true,
    iterations := 63 }

/-- One-directional chord–cycle cross-link consistency: whenever a chord
lists a cycle id among its `cycle_indices`, that id is a valid catalog index
and the cycle lists the chord back in its `chordedge_ids`. -/
def LinkInv (s : MTState) : Prop :=
  ∀ fi ci, ci ∈ (s.F.getD fi default).cycle_indices →
    ci < s.cycles.length ∧ fi ∈ (s.cycles.getD ci default).chordedge_ids

/-! # Theorems -/

/-! ## C8: `add_cycle` -/

/-- **C8, counterexample.**  The claim states that adding the same cycle id
twice leaves the chord's `cycle_indices` in the same state as adding it
once, with a single occurrence.  On the chord `(1,2)` and cycle id `5` the
code yields `[5, 5]` after a double add, which differs from the single-add
state `[5]`. -/
theorem C8_counterexample :
    ((MT_Chordedge.mk 1 2 false [] []).add_cycle 5).add_cycle 5 ≠
      (MT_Chordedge.mk 1 2 false [] []).add_cycle 5 ∧
    (((MT_Chordedge.mk 1 2 false [] []).add_cycle 5).add_cycle 5).cycle_indices = [5, 5] := by
  constructor
  · decide
  · rfl

/-- **C8, amended.**  `MT_Chordedge.add_cycle` appends the given cycle id to
`cycle_indices` unconditionally; it is not idempotent: adding the same id
twice appends it twice, producing two occurrences of that id. -/
theorem C8_add_cycle_not_idempotent (c : MT_Chordedge) (i : Nat) :
    ((c.add_cycle i).add_cycle i).cycle_indices = c.cycle_indices ++ [i, i] := by
  simp [MT_Chordedge.add_cycle]

/-! ## C5: the cycle-too-large error -/

theorem init_le_foldl_max (m : List Nat) : ∀ b, b ≤ m.foldl max b := by
  induction m with
  | nil => intro b; simp
  | cons z zs ih => intro b; exact le_trans (le_max_left b z) (ih (max b z))

theorem le_foldl_max (l : List Nat) : ∀ a x, x ∈ l → x ≤ l.foldl max a := by
  induction l with
  | nil => intro a x hx; cases hx
  | cons y ys ih =>
    intro a x hx
    simp only [List.foldl_cons]
    rcases List.mem_cons.mp hx with h | h
    · subst h
      exact le_trans (le_max_right a x) (init_le_foldl_max ys (max a x))
    · exact ih (max a y) x h

theorem pyMaxNat_ge (l : List Nat) (x : Nat) (hx : x ∈ l) : x ≤ pyMaxNat l :=
  le_foldl_max l 0 x hx

/-- **C5.**  If the modelled cycle enumeration of the input graph contains a
cycle with more than 16 nodes, `run` raises `MT_TooLargeCycleError` from
`init_cycle_chord_database` before the main loop executes any iteration:
for every fuel, the whole computation is the error, so the engine offers no
recovery and the search is never entered. -/
theorem C5_too_large_cycle_error (g : Graph) (fuel : Nat) (c : List Node)
    (hc : c ∈ get_all_cycle_from_cycle_basis g) (hlen : 16 < c.length) :
    run g fuel = Except.error () := by
  have hmem : c.length ∈ ((get_all_cycle_from_cycle_basis g).map
      (fun c => ({ cyclenodes := c } : MT_Cycle))).map (fun c => c.cyclenodes.length) := by
    simp only [List.map_map]
    exact List.mem_map.mpr ⟨c, hc, rfl⟩
  have hpos : 0 < ((get_all_cycle_from_cycle_basis g).map
      (fun c => ({ cyclenodes := c } : MT_Cycle))).length := by
    simp only [List.length_map]
    exact List.length_pos_of_mem hc
  have hmax : 16 < pyMaxNat (((get_all_cycle_from_cycle_basis g).map
      (fun c => ({ cyclenodes := c } : MT_Cycle))).map (fun c => c.cyclenodes.length)) :=
    lt_of_lt_of_le hlen (pyMaxNat_ge _ _ hmem)
  unfold run init_cycle_chord_database
  simp only [hpos, hmax, and_self, if_true, true_and]

/-- **C5, witness.**  The 17-cycle has a single chordless cycle, of length
17, and `run` on it is the error for a concrete fuel. -/
theorem C5_witness :
    [1,2,3,4,5,6,7,8,9,10,11,12,13,14,15,16,17] ∈
      get_all_cycle_from_cycle_basis (cycleGraph 17) ∧
    16 < ([1,2,3,4,5,6,7,8,9,10,11,12,13,14,15,16,17] : List Node).length ∧
    run (cycleGraph 17) 100 = Except.error () :=
  ⟨by decide, by decide,
   C5_too_large_cycle_error (cycleGraph 17) 100
     [1,2,3,4,5,6,7,8,9,10,11,12,13,14,15,16,17] (by decide) (by decide)⟩

/-! ## C6: chordal or forest inputs -/

theorem gm_cycles_nil_of_chordal (g : Graph) (h : is_chordal g = true) :
    get_all_cycle_from_cycle_basis g = [] := by
  unfold is_chordal at h
  unfold get_all_cycle_from_cycle_basis
  rw [List.filter_eq_nil_iff]
  intro c hc
  have := (List.all_eq_true.mp h) c hc
  simp only [decide_eq_true_eq] at this ⊢
  omega

theorem runLoop_of_terminated (fuel : Nat) (ls : LoopState) (h : ls.terminated = true) :
    runLoop fuel ls = ls := by
  cases fuel with
  | zero => rfl
  | succ n => simp [runLoop, h]

/-- Fuel composition for the main loop: running `a + b` iterations is
running `a` iterations and then `b` more. -/
theorem runLoop_add (a b : Nat) (ls : LoopState) :
    runLoop (a + b) ls = runLoop b (runLoop a ls) := by
  induction a generalizing ls with
  | zero => simp [runLoop]
  | succ n ih =>
    rw [Nat.succ_add]
    cases h : ls.terminated with
    | true => simp only [runLoop_of_terminated _ _ h]
    | false =>
      simp only [runLoop, h, Bool.false_eq_true, if_false]
      exact ih (loopIter ls)

/-- `run` expressed through `runLoop`, given the result of initialisation. -/
theorem run_eq_of_init (g : Graph) (fuel : Nat) (s : MTState)
    (h : init_cycle_chord_database { G := g } = Except.ok s) :
    run g fuel = Except.ok { runLoop fuel (initLoopState g s) with
      db := { (runLoop fuel (initLoopState g s)).db with
        edges_of_triangulation :=
          ((runLoop fuel (initLoopState g s)).minimum_triangulation_chordset.map
            MT_Chordedge.get_edge) } } := by
  unfold run
  rw [h]


/-- **C6.**  If the input graph is chordal or its cycle enumeration is empty
(for example, a forest), `run` terminates without executing the main loop
body: for every fuel it returns successfully with zero loop iterations, the
`terminated` flag set, and `edges_of_triangulation = []`, so the minimum
triangulation size is 0. -/
theorem C6_immediate_termination (g : Graph) (fuel : Nat)
    (h : is_chordal g = true ∨ get_all_cycle_from_cycle_basis g = []) :
    ∃ ls, run g fuel = Except.ok ls ∧ ls.iterations = 0 ∧ ls.terminated = true ∧
      ls.db.edges_of_triangulation = [] := by
  have hnil : get_all_cycle_from_cycle_basis g = [] := by
    rcases h with h | h
    · exact gm_cycles_nil_of_chordal g h
    · exact h
  unfold run init_cycle_chord_database
  simp only [hnil, List.map_nil, List.length_nil, lt_irrefl, false_and, if_false,
    List.range_zero, List.foldl_nil]
  refine ⟨_, rfl, ?_, ?_, ?_⟩ <;>
    rw [runLoop_of_terminated _ _ (by simp [initLoopState])] <;> simp [initLoopState]

/-- **C6, witness.**  A triangle is chordal, and `run` on it stops at once
with the empty triangulation. -/
theorem C6_witness :
    (is_chordal [(1,2),(2,3),(1,3)] = true ∨
      get_all_cycle_from_cycle_basis [(1,2),(2,3),(1,3)] = []) ∧
    ∃ ls, run [(1,2),(2,3),(1,3)] 50 = Except.ok ls ∧ ls.iterations = 0 ∧
      ls.terminated = true ∧ ls.db.edges_of_triangulation = [] :=
  ⟨Or.inl (by decide), C6_immediate_termination [(1,2),(2,3),(1,3)] 50 (Or.inl (by decide))⟩

/-! ## C10: the engine never mutates the input graph -/

theorem foldl_G_eq {α : Type} (f : MTState → α → MTState)
    (hf : ∀ s x, (f s x).G = s.G) : ∀ (l : List α) (s : MTState), (l.foldl f s).G = s.G := by
  intro l
  induction l with
  | nil => intro s; rfl
  | cons x xs ih => intro s; rw [List.foldl_cons, ih, hf]

theorem dbStep_G (cycle_id : Nat) (cyc : List Node) (s : MTState) (ij : Nat × Nat) :
    (dbStep cycle_id cyc s ij).G = s.G := by
  unfold dbStep
  dsimp only
  cases chordAdjLookup s.chord_adjacencies (cyc.getD ij.1 0) (cyc.getD ij.2 0) <;> rfl

theorem init_db_for_cycle_G (cycle_id : Nat) (s : MTState) :
    (init_cycle_chord_database_for_cycle cycle_id s).G = s.G := by
  unfold init_cycle_chord_database_for_cycle
  exact foldl_G_eq _ (dbStep_G cycle_id _) _ s

theorem activateSub_G (s : MTState) (sid : Nat) : (activateSub s sid).G = s.G := rfl

theorem registerSub_G (cycle_id chord_id : Nat) (s : MTState) (nodes : List Node) :
    (registerSub cycle_id chord_id s nodes).G = s.G := by
  unfold registerSub appendSubEntry
  dsimp only
  split
  · cases hl : cycleIdsLookup s.cycle_ids nodes with
    | none =>
      dsimp only
      rw [init_db_for_cycle_G]
    | some sid =>
      dsimp only
      split <;> rfl
  · rfl

theorem split_cycle_G (s : MTState) (cycle_id chord_id : Nat) :
    (split_cycle s cycle_id chord_id).G = s.G := by
  unfold split_cycle
  dsimp only
  cases hl : assocLookup (s.cycles.getD cycle_id default).subcycles chord_id with
  | some subs =>
    dsimp only
    apply foldl_G_eq
    intro t x
    rfl
  | none =>
    dsimp only
    apply foldl_G_eq
    exact registerSub_G cycle_id chord_id

theorem merge_cycle_G (s : MTState) (chord_id cycle_id : Nat) :
    (merge_cycle s chord_id cycle_id).G = s.G := by
  unfold merge_cycle
  dsimp only
  apply foldl_G_eq
  intro t x
  rfl

theorem recomputeRegister_G (chord_id : Nat) (s : MTState) :
    (recomputeRegister chord_id s).G = s.G := by
  unfold recomputeRegister
  apply foldl_G_eq
  intro st c
  dsimp only
  split
  · rfl
  · rw [init_db_for_cycle_G]

theorem forwardCycleStep_G (chord_id : Nat) (ls : LoopState) (cycle_id : Nat) :
    (forwardCycleStep chord_id ls cycle_id).db.G = ls.db.G := by
  unfold forwardCycleStep
  dsimp only
  have hG : (recomputeRegister chord_id
      { split_cycle ls.db cycle_id chord_id with
        F := listUpd (split_cycle ls.db cycle_id chord_id).F chord_id
          (fun f => { f with is_in_graph := true }) }).G = ls.db.G := by
    rw [recomputeRegister_G]
    show (split_cycle ls.db cycle_id chord_id).G = ls.db.G
    rw [split_cycle_G]
  split
  · split
    · exact hG
    · exact hG
  · exact hG

theorem foldl_loop_G (f : LoopState → Nat → LoopState)
    (hf : ∀ ls x, (f ls x).db.G = ls.db.G) :
    ∀ (l : List Nat) (ls : LoopState), (l.foldl f ls).db.G = ls.db.G := by
  intro l
  induction l with
  | nil => intro ls; rfl
  | cons x xs ih => intro ls; rw [List.foldl_cons, ih, hf]

theorem forwardStep_G (chord_id : Nat) (ls : LoopState) :
    (forwardStep chord_id ls).db.G = ls.db.G := by
  unfold forwardStep
  rw [foldl_loop_G _ (forwardCycleStep_G chord_id)]

theorem removeInducedLinks_G (s : MTState) (cycle_id : Nat) :
    (removeInducedLinks s cycle_id).G = s.G := by
  unfold removeInducedLinks
  dsimp only
  apply foldl_G_eq
  intro st ch
  rfl

theorem backwardStep_G (ls : LoopState) : (backwardStep ls).db.G = ls.db.G := by
  unfold backwardStep
  cases hl : ls.chord_stack.getLast? with
  | none => rfl
  | some p =>
    dsimp only
    show (((p.2.foldl (fun st ci => merge_cycle st p.1 ci) ls.db).F.getD p.1
        default).induced_cycles.foldl removeInducedLinks _).G = ls.db.G
    rw [foldl_G_eq _ removeInducedLinks_G,
        foldl_G_eq _ (fun s x => merge_cycle_G s p.1 x)]

theorem loopIter_G (ls : LoopState) : (loopIter ls).db.G = ls.db.G := by
  unfold loopIter
  dsimp only
  split
  · rfl
  · split
    · rw [forwardStep_G]
    · split
      · rw [backwardStep_G]
      · rfl

theorem runLoop_G (fuel : Nat) : ∀ ls : LoopState, (runLoop fuel ls).db.G = ls.db.G := by
  induction fuel with
  | zero => intro ls; rfl
  | succ n ih =>
    intro ls
    unfold runLoop
    split
    · rfl
    · rw [ih, loopIter_G]

theorem initState_G (g : Graph) (s : MTState) :
    init_cycle_chord_database { G := g } = Except.ok s → s.G = g := by
  unfold init_cycle_chord_database
  dsimp only
  split
  · intro h; cases h
  · intro h
    have := congrArg (fun r => match r with | Except.ok s => s.G | Except.error _ => g) h
    dsimp at this
    rw [← this, foldl_G_eq]
    intro st i
    exact init_db_for_cycle_G i st

/-- **C10.**  The engine never mutates the input graph: for every input `g`
and fuel, a successful `run` leaves the stored graph equal to `g` — the
loop only builds temporary augmented copies — and `get_triangulated`
returns a fresh copy of `g` extended by the recorded triangulation edges,
leaving the stored graph untouched. -/
theorem C10_input_graph_preserved (g : Graph) (fuel : Nat) (ls : LoopState)
    (h : run g fuel = Except.ok ls) :
    ls.db.G = g ∧ get_triangulated ls.db = addEdges g ls.db.edges_of_triangulation := by
  have hG : ls.db.G = g := by
    unfold run at h
    revert h
    cases hinit : init_cycle_chord_database { G := g } with
    | error e => intro h; cases h
    | ok s =>
      intro h
      have hs := initState_G g s hinit
      have := congrArg (fun r => match r with | Except.ok l => l.db.G | Except.error _ => g) h
      dsimp at this
      rw [← this, runLoop_G]
      exact hs
  exact ⟨hG, by rw [get_triangulated, hG]⟩

/-- **C10, witness.**  Instantiated on the 4-cycle. -/
theorem C10_witness :
    ∃ ls, run (cycleGraph 4) 20 = Except.ok ls ∧ ls.db.G = cycleGraph 4 ∧
      get_triangulated ls.db = addEdges (cycleGraph 4) ls.db.edges_of_triangulation := by
  cases hr : run (cycleGraph 4) 20 with
  | error e =>
    have hsome : (run (cycleGraph 4) 20).toOption.isSome = true := by decide
    rw [hr] at hsome
    simp [Except.toOption] at hsome
  | ok ls =>
    exact ⟨ls, rfl, C10_input_graph_preserved (cycleGraph 4) 20 ls hr⟩

/-! ## C9: chord–cycle cross-link consistency -/

theorem listUpd_length {α : Type} (l : List α) (i : Nat) (f : α → α) :
    (listUpd l i f).length = l.length := by
  induction l generalizing i with
  | nil => rfl
  | cons x xs ih =>
    cases i with
    | zero => rfl
    | succ n => simp [listUpd, ih]

theorem listUpd_of_ge {α : Type} (l : List α) (i : Nat) (f : α → α) (h : l.length ≤ i) :
    listUpd l i f = l := by
  induction l generalizing i with
  | nil => rfl
  | cons x xs ih =>
    cases i with
    | zero => simp at h
    | succ n =>
      simp only [List.length_cons, Nat.succ_le_succ_iff] at h
      simp [listUpd, ih n h]

theorem getD_listUpd_self {α : Type} (l : List α) (i : Nat) (f : α → α) (d : α)
    (h : i < l.length) : (listUpd l i f).getD i d = f (l.getD i d) := by
  induction l generalizing i with
  | nil => simp at h
  | cons x xs ih =>
    cases i with
    | zero => rfl
    | succ n =>
      simp only [List.length_cons, Nat.succ_lt_succ_iff] at h
      simpa [listUpd] using ih n h

theorem getD_listUpd_ne {α : Type} (l : List α) (i j : Nat) (f : α → α) (d : α)
    (h : i ≠ j) : (listUpd l i f).getD j d = l.getD j d := by
  induction l generalizing i j with
  | nil => rfl
  | cons x xs ih =>
    cases i with
    | zero =>
      cases j with
      | zero => exact absurd rfl h
      | succ m => rfl
    | succ n =>
      cases j with
      | zero => rfl
      | succ m =>
        have : n ≠ m := fun he => h (by rw [he])
        simpa [listUpd] using ih n m this

theorem getD_append_lt {α : Type} (l l2 : List α) (j : Nat) (d : α) (h : j < l.length) :
    (l ++ l2).getD j d = l.getD j d := by
  induction l generalizing j with
  | nil => simp at h
  | cons x xs ih =>
    cases j with
    | zero => rfl
    | succ n =>
      simp only [List.length_cons, Nat.succ_lt_succ_iff] at h
      simpa using ih n h

theorem getD_append_len {α : Type} (l : List α) (x : α) (d : α) :
    (l ++ [x]).getD l.length d = x := by
  induction l with
  | nil => rfl
  | cons y ys ih => exact ih

theorem getD_of_ge {α : Type} (l : List α) (j : Nat) (d : α) (h : l.length ≤ j) :
    l.getD j d = d := by
  induction l generalizing j with
  | nil => cases j <;> rfl
  | cons x xs ih =>
    cases j with
    | zero => simp at h
    | succ n =>
      simp only [List.length_cons, Nat.succ_le_succ_iff] at h
      simpa using ih n h

/-- Monotonicity: shrinking the chords' `cycle_indices`, growing the cycles'
`chordedge_ids`, and growing the catalog preserves the cross-link
invariant. -/
theorem LinkInv_mono (s1 s2 : MTState)
    (hF : ∀ fi ci, ci ∈ (s2.F.getD fi default).cycle_indices →
      ci ∈ (s1.F.getD fi default).cycle_indices)
    (hC : ∀ ci fi, fi ∈ (s1.cycles.getD ci default).chordedge_ids →
      fi ∈ (s2.cycles.getD ci default).chordedge_ids)
    (hL : s1.cycles.length ≤ s2.cycles.length)
    (h : LinkInv s1) : LinkInv s2 := by
  intro fi ci hmem
  obtain ⟨hlt, hback⟩ := h fi ci (hF fi ci hmem)
  exact ⟨lt_of_lt_of_le hlt hL, hC ci fi hback⟩

theorem foldl_pres {σ α : Type} (P : σ → Prop) (f : σ → α → σ) :
    ∀ (l : List α), (∀ s x, x ∈ l → P s → P (f s x)) → ∀ s, P s → P (l.foldl f s) := by
  intro l
  induction l with
  | nil => intro _ s hs; exact hs
  | cons x xs ih =>
    intro hf s hs
    exact ih (fun s y hy => hf s y (List.mem_cons_of_mem x hy)) (f s x)
      (hf s x (List.mem_cons_self x xs) hs)

theorem mem_chordedges_listUpd (C : List MT_Cycle) (i : Nat) (f : MT_Cycle → MT_Cycle)
    (hf : ∀ c, (f c).chordedge_ids = c.chordedge_ids) (ci fi : Nat) :
    fi ∈ ((listUpd C i f).getD ci default).chordedge_ids ↔
      fi ∈ ((C.getD ci default).chordedge_ids) := by
  by_cases hi : i = ci
  · subst hi
    by_cases hlt : i < C.length
    · rw [getD_listUpd_self C i f default hlt, hf]
    · rw [listUpd_of_ge C i f (le_of_not_lt hlt)]
  · rw [getD_listUpd_ne C i ci f default hi]

theorem mem_indices_listUpd (F : List MT_Chordedge) (i : Nat) (f : MT_Chordedge → MT_Chordedge)
    (hf : ∀ c, (f c).cycle_indices = c.cycle_indices) (fi ci : Nat) :
    ci ∈ ((listUpd F i f).getD fi default).cycle_indices ↔
      ci ∈ ((F.getD fi default).cycle_indices) := by
  by_cases hi : i = fi
  · subst hi
    by_cases hlt : i < F.length
    · rw [getD_listUpd_self F i f default hlt, hf]
    · rw [listUpd_of_ge F i f (le_of_not_lt hlt)]
  · rw [getD_listUpd_ne F i fi f default hi]

theorem mem_indices_listUpd_erase (F : List MT_Chordedge) (i x fi ci : Nat) :
    ci ∈ ((listUpd F i (fun f => { f with cycle_indices := f.cycle_indices.erase x })).getD
      fi default).cycle_indices → ci ∈ ((F.getD fi default).cycle_indices) := by
  by_cases hi : i = fi
  · subst hi
    by_cases hlt : i < F.length
    · rw [getD_listUpd_self F i _ default hlt]
      exact fun h => List.mem_of_mem_erase h
    · rw [listUpd_of_ge F i _ (le_of_not_lt hlt)]
      exact id
  · rw [getD_listUpd_ne F i fi _ default hi]
    exact id

/-- Appending the cycle id to chord `cid` and the chord id to cycle
`cycle_id` together preserves the cross-link invariant (the double append
performed by lines 304-305). -/
theorem pair_update_linkinv (F2 : List MT_Chordedge) (C : List MT_Cycle)
    (cid cycle_id : Nat) (hcy : cycle_id < C.length)
    (base : ∀ fi ci, ci ∈ ((F2.getD fi default).cycle_indices) →
      ci < C.length ∧ fi ∈ ((C.getD ci default).chordedge_ids)) :
    ∀ fi ci,
      ci ∈ (((listUpd F2 cid (fun f => f.add_cycle cycle_id)).getD fi default).cycle_indices) →
      ci < (listUpd C cycle_id (fun c => c.add_chord cid)).length ∧
      fi ∈ (((listUpd C cycle_id (fun c => c.add_chord cid)).getD ci default).chordedge_ids) := by
  intro fi ci hmem
  have hsplit : ci ∈ ((F2.getD fi default).cycle_indices) ∨ (fi = cid ∧ ci = cycle_id) := by
    by_cases hfi : cid = fi
    · subst hfi
      by_cases hlt : cid < F2.length
      · rw [getD_listUpd_self F2 cid _ default hlt] at hmem
        unfold MT_Chordedge.add_cycle at hmem
        simp only [List.mem_append, List.mem_singleton] at hmem
        rcases hmem with h | h
        · exact Or.inl h
        · exact Or.inr ⟨rfl, h⟩
      · rw [listUpd_of_ge F2 cid _ (le_of_not_lt hlt)] at hmem
        exact Or.inl hmem
    · rw [getD_listUpd_ne F2 cid fi _ default hfi] at hmem
      exact Or.inl hmem
  rw [listUpd_length]
  rcases hsplit with h | ⟨hfi, hci⟩
  · obtain ⟨h1, h2⟩ := base fi ci h
    refine ⟨h1, ?_⟩
    by_cases hc : cycle_id = ci
    · subst hc
      rw [getD_listUpd_self C cycle_id _ default hcy]
      unfold MT_Cycle.add_chord
      exact List.mem_append_left _ h2
    · rw [getD_listUpd_ne C cycle_id ci _ default hc]
      exact h2
  · rw [hfi, hci]
    refine ⟨hcy, ?_⟩
    rw [getD_listUpd_self C cycle_id _ default hcy]
    unfold MT_Cycle.add_chord
    simp

theorem append_fresh_chord_base (F : List MT_Chordedge) (C : List MT_Cycle)
    (e : MT_Chordedge) (he : e.cycle_indices = [])
    (base : ∀ fi ci, ci ∈ ((F.getD fi default).cycle_indices) →
      ci < C.length ∧ fi ∈ ((C.getD ci default).chordedge_ids)) :
    ∀ fi ci, ci ∈ (((F ++ [e]).getD fi default).cycle_indices) →
      ci < C.length ∧ fi ∈ ((C.getD ci default).chordedge_ids) := by
  intro fi ci hmem
  rcases lt_trichotomy fi F.length with hlt | heq | hgt
  · rw [getD_append_lt F [e] fi default hlt] at hmem
    exact base fi ci hmem
  · rw [heq, getD_append_len] at hmem
    rw [he] at hmem
    cases hmem
  · rw [getD_of_ge (F ++ [e]) fi default (by simp; omega)] at hmem
    cases hmem

theorem dbStep_LinkInv (cycle_id : Nat) (cyc : List Node) (s : MTState) (ij : Nat × Nat)
    (hcy : cycle_id < s.cycles.length) (h : LinkInv s) :
    LinkInv (dbStep cycle_id cyc s ij) := by
  unfold dbStep
  dsimp only
  cases hl : chordAdjLookup s.chord_adjacencies (cyc.getD ij.1 0) (cyc.getD ij.2 0) with
  | some cid =>
    intro fi ci hmem
    exact pair_update_linkinv s.F s.cycles cid cycle_id hcy h fi ci hmem
  | none =>
    intro fi ci hmem
    exact pair_update_linkinv (s.F ++ [{ node_v := cyc.getD ij.1 0, node_u := cyc.getD ij.2 0 }])
      s.cycles s.F.length cycle_id hcy
      (append_fresh_chord_base s.F s.cycles _ rfl h) fi ci hmem

theorem dbStep_cycles_len (cycle_id : Nat) (cyc : List Node) (s : MTState) (ij : Nat × Nat) :
    (dbStep cycle_id cyc s ij).cycles.length = s.cycles.length := by
  unfold dbStep
  dsimp only
  cases chordAdjLookup s.chord_adjacencies (cyc.getD ij.1 0) (cyc.getD ij.2 0) <;>
    simp [listUpd_length]

theorem init_db_LinkInv (cycle_id : Nat) (s : MTState)
    (hcy : cycle_id < s.cycles.length) (h : LinkInv s) :
    LinkInv (init_cycle_chord_database_for_cycle cycle_id s) := by
  unfold init_cycle_chord_database_for_cycle
  have := foldl_pres (fun st => LinkInv st ∧ cycle_id < st.cycles.length)
    (dbStep cycle_id (s.cycles.getD cycle_id default).cyclenodes)
    (chordPairs (s.cycles.getD cycle_id default).cyclenodes.length)
    (fun st ij _ hP => ⟨dbStep_LinkInv cycle_id _ st ij hP.2 hP.1,
      by rw [dbStep_cycles_len]; exact hP.2⟩)
    s ⟨h, hcy⟩
  exact this.1

theorem init_db_cycles_len (cycle_id : Nat) (s : MTState) :
    (init_cycle_chord_database_for_cycle cycle_id s).cycles.length = s.cycles.length := by
  unfold init_cycle_chord_database_for_cycle
  exact foldl_pres (fun st => st.cycles.length = s.cycles.length)
    (dbStep cycle_id (s.cycles.getD cycle_id default).cyclenodes)
    (chordPairs (s.cycles.getD cycle_id default).cyclenodes.length)
    (fun st ij _ hP => by dsimp only; rw [dbStep_cycles_len]; exact hP) s rfl

theorem LinkInv_cycles_upd (s : MTState) (i : Nat) (f : MT_Cycle → MT_Cycle)
    (hf : ∀ c, (f c).chordedge_ids = c.chordedge_ids) (h : LinkInv s) :
    LinkInv { s with cycles := listUpd s.cycles i f } := by
  intro fi ci hmem
  obtain ⟨h1, h2⟩ := h fi ci hmem
  exact ⟨by simpa [listUpd_length] using h1,
    (mem_chordedges_listUpd s.cycles i f hf ci fi).mpr h2⟩

theorem LinkInv_cycles_flag (s : MTState) (i : Nat) (f : MT_Cycle → MT_Cycle) (k : Int)
    (hf : ∀ c, (f c).chordedge_ids = c.chordedge_ids) (h : LinkInv s) :
    LinkInv { s with cycles := listUpd s.cycles i f, number_of_nonchordal_cycles := k } := by
  intro fi ci hmem
  obtain ⟨h1, h2⟩ := h fi ci hmem
  exact ⟨by simpa [listUpd_length] using h1,
    (mem_chordedges_listUpd s.cycles i f hf ci fi).mpr h2⟩

theorem LinkInv_F_upd (s : MTState) (i : Nat) (f : MT_Chordedge → MT_Chordedge)
    (hf : ∀ c, (f c).cycle_indices = c.cycle_indices) (h : LinkInv s) :
    LinkInv { s with F := listUpd s.F i f } := by
  intro fi ci hmem
  exact h fi ci ((mem_indices_listUpd s.F i f hf fi ci).mp hmem)

theorem activateSub_LinkInv (s : MTState) (sid : Nat) (h : LinkInv s) :
    LinkInv (activateSub s sid) :=
  LinkInv_cycles_flag s sid _ _ (fun c => rfl) h

theorem deactivateSub_LinkInv (s : MTState) (sid : Nat) (h : LinkInv s) :
    LinkInv (deactivateSub s sid) :=
  LinkInv_cycles_flag s sid _ _ (fun c => rfl) h

theorem merge_cycle_LinkInv (s : MTState) (chord_id cycle_id : Nat) (h : LinkInv s) :
    LinkInv (merge_cycle s chord_id cycle_id) := by
  unfold merge_cycle
  dsimp only
  exact foldl_pres LinkInv deactivateSub _
    (fun st x _ hP => deactivateSub_LinkInv st x hP) _
    (LinkInv_cycles_flag s cycle_id _ _ (fun c => rfl) h)

theorem registerSub_LinkInv (cycle_id chord_id : Nat) (s : MTState) (nodes : List Node)
    (h : LinkInv s) : LinkInv (registerSub cycle_id chord_id s nodes) := by
  unfold registerSub appendSubEntry
  dsimp only
  split
  · cases hl : cycleIdsLookup s.cycle_ids nodes with
    | none =>
      dsimp only
      have h1 : LinkInv { s with
          cycles := s.cycles ++ [{ cyclenodes := nodes }],
          cycle_ids := s.cycle_ids ++ [(nodes, s.cycles.length)] } := by
        intro fi ci hmem
        obtain ⟨ha, hb⟩ := h fi ci hmem
        refine ⟨?_, ?_⟩
        · simp only [List.length_append, List.length_cons, List.length_nil]
          omega
        · show fi ∈ (((s.cycles ++ [({ cyclenodes := nodes } : MT_Cycle)]).getD ci
            default)).chordedge_ids
          rw [getD_append_lt _ _ _ _ ha]
          exact hb
      have h2 := init_db_LinkInv s.cycles.length _ (by simp) h1
      exact LinkInv_cycles_upd _ cycle_id _ (fun c => rfl) h2
    | some sid =>
      dsimp only
      split
      · exact LinkInv_cycles_upd s cycle_id _ (fun c => rfl) h
      · exact LinkInv_cycles_upd _ cycle_id _ (fun c => rfl) (activateSub_LinkInv s sid h)
  · exact h

theorem split_cycle_LinkInv (s : MTState) (cycle_id chord_id : Nat) (h : LinkInv s) :
    LinkInv (split_cycle s cycle_id chord_id) := by
  unfold split_cycle
  dsimp only
  cases hl : assocLookup (s.cycles.getD cycle_id default).subcycles chord_id with
  | some subs =>
    dsimp only
    exact LinkInv_cycles_flag _ cycle_id _ _ (fun c => rfl)
      (foldl_pres LinkInv activateSub subs (fun st x _ hP => activateSub_LinkInv st x hP) s h)
  | none =>
    dsimp only
    refine LinkInv_cycles_flag _ cycle_id _ _ (fun c => rfl) ?_
    refine foldl_pres LinkInv (registerSub cycle_id chord_id) _
      (fun st x _ hP => registerSub_LinkInv cycle_id chord_id st x hP) _ ?_
    exact LinkInv_cycles_upd s cycle_id _ (fun c => rfl) h

theorem recomputeRegister_LinkInv (chord_id : Nat) (s : MTState) (h : LinkInv s) :
    LinkInv (recomputeRegister chord_id s) := by
  unfold recomputeRegister
  dsimp only
  refine foldl_pres LinkInv _ _ ?_ s h
  intro st c _ hP
  dsimp only
  split
  · exact hP
  · refine init_db_LinkInv st.cycles.length _ (by simp) ?_
    intro fi ci hmem
    have hmem2 : ci ∈ ((st.F.getD fi default).cycle_indices) :=
      (mem_indices_listUpd st.F chord_id
        (fun f => { f with induced_cycles := f.induced_cycles ++ [st.cycles.length] })
        (fun x => rfl) fi ci).mp hmem
    obtain ⟨ha, hb⟩ := hP fi ci hmem2
    refine ⟨?_, ?_⟩
    · simp only [List.length_append, List.length_cons, List.length_nil]
      omega
    · show fi ∈ (((st.cycles ++ [({ cyclenodes := c } : MT_Cycle)]).getD ci
        default)).chordedge_ids
      rw [getD_append_lt _ _ _ _ ha]
      exact hb

theorem removeInducedLinks_LinkInv (s : MTState) (cycle_id : Nat) (h : LinkInv s) :
    LinkInv (removeInducedLinks s cycle_id) := by
  unfold removeInducedLinks
  dsimp only
  refine foldl_pres LinkInv _ _ ?_ _ (LinkInv_cycles_upd s cycle_id _ (fun c => rfl) h)
  intro st ch _ hP
  intro fi ci hmem
  exact hP fi ci (mem_indices_listUpd_erase st.F ch cycle_id fi ci hmem)

theorem backwardStep_LinkInv (ls : LoopState) (h : LinkInv ls.db) :
    LinkInv (backwardStep ls).db := by
  unfold backwardStep
  cases hl : ls.chord_stack.getLast? with
  | none => exact h
  | some p =>
    dsimp only
    have hinv2 : LinkInv (List.foldl removeInducedLinks
        (List.foldl (fun st ci => merge_cycle st p.1 ci) ls.db p.2)
        ((List.foldl (fun st ci => merge_cycle st p.1 ci) ls.db p.2).F.getD p.1
          default).induced_cycles) :=
      foldl_pres LinkInv removeInducedLinks _
        (fun st x _ hP => removeInducedLinks_LinkInv st x hP) _
        (foldl_pres LinkInv _ p.2 (fun st x _ hP => merge_cycle_LinkInv st p.1 x hP) ls.db h)
    intro fi ci hmem
    exact hinv2 fi ci ((mem_indices_listUpd _ p.1
        (fun f => { f with induced_cycles := ([] : List Nat) }) (fun x => rfl) fi ci).mp
      ((mem_indices_listUpd _ p.1
        (fun f => { f with is_in_graph := false }) (fun x => rfl) fi ci).mp hmem))

theorem forwardCycleStep_LinkInv (chord_id : Nat) (ls : LoopState) (cycle_id : Nat)
    (h : LinkInv ls.db) : LinkInv (forwardCycleStep chord_id ls cycle_id).db := by
  unfold forwardCycleStep
  dsimp only
  have h3 : LinkInv (recomputeRegister chord_id
      { split_cycle ls.db cycle_id chord_id with
        F := listUpd (split_cycle ls.db cycle_id chord_id).F chord_id
          (fun f => { f with is_in_graph := true }) }) :=
    recomputeRegister_LinkInv chord_id _
      (LinkInv_F_upd _ chord_id _ (fun c => rfl) (split_cycle_LinkInv ls.db cycle_id chord_id h))
  split
  · split
    · exact h3
    · exact h3
  · exact h3

theorem forwardStep_LinkInv (chord_id : Nat) (ls : LoopState) (h : LinkInv ls.db) :
    LinkInv (forwardStep chord_id ls).db := by
  unfold forwardStep
  dsimp only
  apply foldl_pres (fun l => LinkInv l.db) (forwardCycleStep chord_id)
  · exact fun st x _ hP => forwardCycleStep_LinkInv chord_id st x hP
  · exact h

theorem loopIter_LinkInv (ls : LoopState) (h : LinkInv ls.db) :
    LinkInv (loopIter ls).db := by
  unfold loopIter
  dsimp only
  split
  · exact h
  · split
    · exact forwardStep_LinkInv _ _ h
    · split
      · exact backwardStep_LinkInv _ h
      · exact h

theorem runLoop_LinkInv (fuel : Nat) : ∀ ls : LoopState, LinkInv ls.db →
    LinkInv (runLoop fuel ls).db := by
  induction fuel with
  | zero => intro ls h; exact h
  | succ n ih =>
    intro ls h
    unfold runLoop
    split
    · exact h
    · exact ih _ (loopIter_LinkInv ls h)

theorem init_LinkInv (g : Graph) (s : MTState)
    (h : init_cycle_chord_database { G := g } = Except.ok s) : LinkInv s := by
  unfold init_cycle_chord_database at h
  dsimp only at h
  split at h
  · cases h
  · cases h
    refine (foldl_pres (fun st => LinkInv st ∧ st.cycles.length =
        ((get_all_cycle_from_cycle_basis g).map
          (fun c => ({ cyclenodes := c } : MT_Cycle))).length)
      (fun st i => init_cycle_chord_database_for_cycle i st) _ ?_ _ ⟨?_, rfl⟩).1
    · intro st i hi hP
      dsimp only
      refine ⟨init_db_LinkInv i st ?_ hP.1, ?_⟩
      · rw [hP.2]
        exact List.mem_range.mp hi
      · rw [init_db_cycles_len]
        exact hP.2
    · intro fi ci hmem
      rw [getD_of_ge ([] : List MT_Chordedge) fi default (Nat.zero_le fi)] at hmem
      exact absurd hmem (List.not_mem_nil ci)

/-- **C9, counterexample.**  The claim states that at every point during
the search, a chord's id is in a cycle's `chordedge_ids` iff the cycle's id
is in that chord's `cycle_indices`.  On the graph `G_ind`, after 12 loop
iterations (a state `run` reaches), the backward step for chord 4 has
removed the induced cycle 5 (`[1,2,6,4]`) from its chords' `cycle_indices`
(lines 230-231) without clearing the cycle's own `chordedge_ids`: chord 2
is still listed by cycle 5, but cycle 5 is no longer listed by chord 2. -/
theorem C9_counterexample :
    2 ∈ (((runState G_ind 12).db.cycles.getD 5 default).chordedge_ids) ∧
    5 ∉ (((runState G_ind 12).db.F.getD 2 default).cycle_indices) := by
  constructor
  · decide
  · decide

/-- **C9, amended.**  One direction of the cross-link invariant does hold
at every point during the search: in every state `run` can reach (any fuel
cutoff of the main loop), whenever a cycle id appears in a chord's
`cycle_indices`, it is a valid catalog index and that cycle's
`chordedge_ids` contains the chord's id.  The converse direction fails
after backward steps discard induced cycles. -/
theorem C9_one_directional_links (g : Graph) (fuel : Nat) (ls : LoopState)
    (h : run g fuel = Except.ok ls) : LinkInv ls.db := by
  unfold run at h
  revert h
  cases hinit : init_cycle_chord_database { G := g } with
  | error e => intro h; cases h
  | ok s =>
    intro h
    have hs := init_LinkInv g s hinit
    have hloop := runLoop_LinkInv fuel (initLoopState g s) hs
    have heq := congrArg (fun r => match r with
      | Except.ok l => l.db.F
      | Except.error _ => []) h
    have heqc := congrArg (fun r => match r with
      | Except.ok l => l.db.cycles
      | Except.error _ => []) h
    dsimp at heq heqc
    intro fi ci hmem
    rw [← heq] at hmem
    rw [← heqc]
    exact hloop fi ci hmem

/-- **C9, witness.**  The amended invariant instantiated on a finished run
on the 4-cycle, at the cross-link pair chord 0 / cycle 0. -/
theorem C9_witness :
    ∃ ls, run (cycleGraph 4) 20 = Except.ok ls ∧
      (0 ∈ ((ls.db.F.getD 0 default).cycle_indices) →
        0 < ls.db.cycles.length ∧ 0 ∈ ((ls.db.cycles.getD 0 default).chordedge_ids)) := by
  cases hr : run (cycleGraph 4) 20 with
  | error e =>
    have hsome : (run (cycleGraph 4) 20).toOption.isSome = true := by decide
    rw [hr] at hsome
    simp [Except.toOption] at hsome
  | ok ls =>
    exact ⟨ls, rfl, C9_one_directional_links (cycleGraph 4) 20 ls hr 0 0⟩

/-! ## C7: `get_subcycles` -/

theorem normEdge_comm (x y : Node) : normEdge x y = normEdge y x := by
  unfold normEdge
  rcases lt_trichotomy x y with h | h | h
  · rw [if_pos (le_of_lt h), if_neg (not_le.mpr h)]
  · subst h
    simp
  · rw [if_neg (not_le.mpr h), if_pos (le_of_lt h)]

theorem lastIdxAux_of_not_mem (l : List Node) (x : Node) (hx : x ∉ l) :
    ∀ k cur, lastIdxAux l x k cur = cur := by
  induction l with
  | nil => intro k cur; rfl
  | cons y ys ih =>
    intro k cur
    have hy : y ≠ x := fun he => hx (he ▸ List.mem_cons_self y ys)
    have hys : x ∉ ys := fun hm => hx (List.mem_cons_of_mem y hm)
    unfold lastIdxAux
    rw [if_neg (by simpa using hy)]
    exact ih hys (k + 1) cur

theorem lastIdxAux_found (T : List Node) (aa : Node) (hT : aa ∉ T) :
    ∀ (P : List Node), aa ∉ P → ∀ k cur,
      lastIdxAux (P ++ aa :: T) aa k cur = k + P.length + 1 := by
  intro P
  induction P with
  | nil =>
    intro _ k cur
    rw [List.nil_append]
    unfold lastIdxAux
    rw [if_pos (by simp)]
    rw [lastIdxAux_of_not_mem T aa hT]
    simp
  | cons p P ih =>
    intro hP k cur
    have hp : p ≠ aa := fun he => hP (he ▸ List.mem_cons_self p P)
    have hP2 : aa ∉ P := fun hm => hP (List.mem_cons_of_mem p hm)
    show lastIdxAux (p :: (P ++ aa :: T)) aa k cur = k + (p :: P).length + 1
    unfold lastIdxAux
    rw [if_neg (by simpa using hp)]
    rw [ih hP2 (k + 1) cur]
    simp only [List.length_cons]
    push_cast
    ring

theorem lastIdx_found (P T : List Node) (aa : Node) (hP : aa ∉ P) (hT : aa ∉ T) :
    lastIdx (P ++ aa :: T) aa = (P.length : Int) := by
  unfold lastIdx
  rw [lastIdxAux_found T aa hT P hP]
  ring

theorem pyIdx_coe (n k : Nat) (h : k ≤ n) : pyIdx n (k : Int) = k := by
  unfold pyIdx
  rw [if_neg (by omega)]
  simp [h]

theorem pySlice_coe (l : List Node) (a b : Nat) (ha : a ≤ l.length) (hb : b ≤ l.length) :
    pySlice l (a : Int) (b : Int) = (l.take b).drop a := by
  unfold pySlice
  rw [pyIdx_coe _ _ hb, pyIdx_coe _ _ ha]

theorem consecEdges_cons₂ (x y : Node) (l : List Node) :
    consecEdges (x :: y :: l) = normEdge x y :: consecEdges (y :: l) := rfl

theorem consecEdges_split (x : Node) (B : List Node) :
    ∀ A : List Node, consecEdges (A ++ x :: B) = consecEdges (A ++ [x]) ++ consecEdges (x :: B) := by
  intro A
  induction A with
  | nil =>
    cases B with
    | nil => rfl
    | cons b bs => simp [consecEdges]
  | cons a A ih =>
    cases A with
    | nil =>
      cases B with
      | nil => rfl
      | cons b bs => simp [consecEdges]
    | cons c A2 =>
      have : ((a :: c :: A2) ++ x :: B) = a :: ((c :: A2) ++ x :: B) := rfl
      rw [this, show (c :: A2) ++ x :: B = c :: (A2 ++ x :: B) from rfl]
      rw [consecEdges_cons₂]
      rw [show c :: (A2 ++ x :: B) = (c :: A2) ++ x :: B from rfl, ih]
      simp [consecEdges_cons₂]

theorem cyclicEdges_expand (l : List Node) (hl : l ≠ []) :
    cyclicEdges l = consecEdges l ++ [normEdge (l.getLastD 0) (l.headD 0)] := by
  cases l with
  | nil => exact absurd rfl hl
  | cons x xs => rfl

theorem getLastD_append_cons (y : Node) (B : List Node) (d : Node) :
    ∀ A : List Node, (A ++ y :: B).getLastD d = (y :: B).getLastD d := by
  intro A
  induction A generalizing d with
  | nil => rfl
  | cons a A ih =>
    show (a :: (A ++ y :: B)).getLastD d = (y :: B).getLastD d
    rw [List.getLastD_cons, ih a, List.getLastD_cons, List.getLastD_cons]

theorem headD_append_cons (A : List Node) (x : Node) (B C : List Node) (d : Node) :
    (A ++ x :: B).headD d = (A ++ x :: C).headD d := by
  cases A <;> rfl


theorem take_append_exact {α : Type} (l₁ l₂ : List α) (n : Nat) (h : l₁.length = n) :
    (l₁ ++ l₂).take n = l₁ := by
  subst h
  exact List.take_left l₁ l₂

theorem drop_append_exact {α : Type} (l₁ l₂ : List α) (n : Nat) (h : l₁.length = n) :
    (l₁ ++ l₂).drop n = l₂ := by
  subst h
  exact List.drop_left l₁ l₂

theorem get_subcycles_nodes_comm (c : List Node) (v u : Node) :
    get_subcycles_nodes c v u = get_subcycles_nodes c u v := by
  unfold get_subcycles_nodes
  dsimp only
  rw [min_comm, max_comm]

theorem C7_core (P Q R : List Node) (a b : Node)
    (hnd : (P ++ a :: (Q ++ b :: R)).Nodup) :
    get_subcycles_nodes (P ++ a :: (Q ++ b :: R)) a b =
      [(P ++ [a]) ++ b :: R, a :: (Q ++ [b])] ∧
    (cyclicEdges ((P ++ [a]) ++ b :: R)).toFinset ∪
      (cyclicEdges (a :: (Q ++ [b]))).toFinset =
    (cyclicEdges (P ++ a :: (Q ++ b :: R))).toFinset ∪ {normEdge a b} := by
  rw [List.nodup_append] at hnd
  obtain ⟨hPnd, hTnd, hdisj⟩ := hnd
  rw [List.nodup_cons] at hTnd
  obtain ⟨haT, hQbR⟩ := hTnd
  rw [List.nodup_append] at hQbR
  obtain ⟨hQnd, hbRnd, hdisj2⟩ := hQbR
  rw [List.nodup_cons] at hbRnd
  obtain ⟨hbR, hRnd⟩ := hbRnd
  have haP : a ∉ P := fun hm => hdisj hm (List.mem_cons_self _ _)
  have hbmem : b ∈ a :: (Q ++ b :: R) :=
    List.mem_cons_of_mem a (List.mem_append_right Q (List.mem_cons_self b R))
  have hbP : b ∉ P := fun hm => hdisj hm hbmem
  have hab : a ≠ b := by
    intro he
    apply haT
    rw [he]
    exact List.mem_append_right Q (List.mem_cons_self b R)
  have hbQ : b ∉ Q := fun hm => hdisj2 hm (List.mem_cons_self b R)
  have hbPQ : b ∉ P ++ (a :: Q) := by
    intro hm
    rcases List.mem_append.mp hm with h | h
    · exact hbP h
    · rcases List.mem_cons.mp h with h | h
      · exact hab h.symm
      · exact hbQ h
  have hia : lastIdx (P ++ a :: (Q ++ b :: R)) a = (P.length : Int) :=
    lastIdx_found P (Q ++ b :: R) a haP haT
  have hc2 : P ++ a :: (Q ++ b :: R) = (P ++ (a :: Q)) ++ b :: R := by simp
  have hib : lastIdx (P ++ a :: (Q ++ b :: R)) b = ((P.length + Q.length + 1 : Nat) : Int) := by
    rw [hc2, lastIdx_found (P ++ (a :: Q)) R b hbPQ hbR]
    norm_cast
    simp only [List.length_append, List.length_cons]
    omega
  constructor
  · unfold get_subcycles_nodes
    dsimp only
    rw [hia, hib]
    have hmin : min ((P.length : Nat) : Int) ((P.length + Q.length + 1 : Nat) : Int) =
        ((P.length : Nat) : Int) := by
      apply min_eq_left
      push_cast
      omega
    have hmax : max ((P.length : Nat) : Int) ((P.length + Q.length + 1 : Nat) : Int) =
        ((P.length + Q.length + 1 : Nat) : Int) := by
      apply max_eq_right
      push_cast
      omega
    rw [hmin, hmax]
    have hs1a : pySlice (P ++ a :: (Q ++ b :: R)) 0 (((P.length : Nat) : Int) + 1) =
        P ++ [a] := by
      rw [show (((P.length : Nat) : Int) + 1) = ((P.length + 1 : Nat) : Int) from by
        push_cast; ring]
      rw [show ((0 : Int)) = ((0 : Nat) : Int) from rfl]
      rw [pySlice_coe _ _ _ (Nat.zero_le _)
        (by simp only [List.length_append, List.length_cons]; omega)]
      rw [List.drop_zero]
      rw [show P ++ a :: (Q ++ b :: R) = (P ++ [a]) ++ (Q ++ b :: R) from by simp]
      exact List.take_left' (by simp)
    have hs1b : pySlice (P ++ a :: (Q ++ b :: R)) ((P.length + Q.length + 1 : Nat) : Int)
        ((P ++ a :: (Q ++ b :: R)).length : Int) = b :: R := by
      rw [pySlice_coe _ _ _
        (by simp only [List.length_append, List.length_cons]; omega) (le_refl _)]
      rw [List.take_length]
      rw [hc2]
      exact List.drop_left' (by simp only [List.length_append, List.length_cons]; omega)
    have hs2 : pySlice (P ++ a :: (Q ++ b :: R)) ((P.length : Nat) : Int)
        (((P.length + Q.length + 1 : Nat) : Int) + 1) = a :: (Q ++ [b]) := by
      rw [show (((P.length + Q.length + 1 : Nat) : Int) + 1) =
        ((P.length + Q.length + 2 : Nat) : Int) from by push_cast; ring]
      rw [pySlice_coe _ _ _
        (by simp only [List.length_append, List.length_cons]; omega)
        (by simp only [List.length_append, List.length_cons]; omega)]
      rw [show P ++ a :: (Q ++ b :: R) = ((P ++ (a :: Q)) ++ [b]) ++ R from by simp]
      rw [take_append_exact ((P ++ (a :: Q)) ++ [b]) R (P.length + Q.length + 2)
        (by simp only [List.length_append, List.length_cons, List.length_nil]; omega)]
      rw [show (P ++ (a :: Q)) ++ [b] = P ++ (a :: (Q ++ [b])) from by simp]
      exact drop_append_exact P (a :: (Q ++ [b])) P.length rfl
    rw [hs1a, hs1b, hs2]
  · have e1 : cyclicEdges ((P ++ [a]) ++ b :: R) =
        (consecEdges (P ++ [a]) ++ (normEdge a b :: consecEdges (b :: R))) ++
          [normEdge (R.getLastD b) ((P ++ a :: (Q ++ b :: R)).headD 0)] := by
      rw [show (P ++ [a]) ++ b :: R = P ++ a :: (b :: R) from by simp]
      rw [cyclicEdges_expand _ (by simp)]
      rw [consecEdges_split a (b :: R) P, consecEdges_cons₂]
      rw [getLastD_append_cons a (b :: R) 0 P]
      rw [List.getLastD_cons, List.getLastD_cons]
      rw [headD_append_cons P a (b :: R) (Q ++ b :: R) 0]
    have e2 : cyclicEdges (a :: (Q ++ [b])) =
        consecEdges ((a :: Q) ++ [b]) ++ [normEdge a b] := by
      rw [cyclicEdges_expand _ (by simp)]
      rw [show a :: (Q ++ [b]) = (a :: Q) ++ [b] from rfl]
      congr 1
      rw [show ((a :: Q) ++ [b]).getLastD 0 = b from by
        rw [getLastD_append_cons b [] 0 (a :: Q)]
        rfl]
      rw [show ((a :: Q) ++ [b]).headD 0 = a from rfl]
      rw [normEdge_comm]
    have e3 : cyclicEdges (P ++ a :: (Q ++ b :: R)) =
        (consecEdges (P ++ [a]) ++ (consecEdges ((a :: Q) ++ [b]) ++ consecEdges (b :: R))) ++
          [normEdge (R.getLastD b) ((P ++ a :: (Q ++ b :: R)).headD 0)] := by
      rw [cyclicEdges_expand _ (by simp)]
      congr 1
      · rw [consecEdges_split a (Q ++ b :: R) P]
        congr 1
        show consecEdges ((a :: Q) ++ b :: R) = _
        exact consecEdges_split b R (a :: Q)
      · rw [show (P ++ a :: (Q ++ b :: R)).getLastD 0 = R.getLastD b from by
          rw [hc2, getLastD_append_cons b R 0 (P ++ (a :: Q)), List.getLastD_cons]]
    rw [e1, e2, e3]
    ext p
    simp only [Finset.mem_union, List.mem_toFinset, List.mem_append, List.mem_cons,
      List.mem_singleton, Finset.mem_singleton]
    tauto

/-- **C7.**  For a registered cycle whose node sequence contains both
endpoints of a chord `(v, u)` (written as `P ++ a :: (Q ++ b :: R)` with
`{a, b} = {v, u}` at the earlier and later positions), `get_subcycles`
returns exactly two node lists — the prefix up to the earlier endpoint
concatenated with the suffix from the later endpoint, `(P ++ [a]) ++ b :: R`,
and the contiguous segment between the endpoints, `a :: (Q ++ [b])` — and
the union of the two sub-cycles' cyclic edge sets is exactly the parent
cycle's edge set plus the chord edge. -/
theorem C7_get_subcycles (P Q R : List Node) (a b v u : Node)
    (hnd : (P ++ a :: (Q ++ b :: R)).Nodup)
    (hvu : (a = v ∧ b = u) ∨ (a = u ∧ b = v)) :
    get_subcycles_nodes (P ++ a :: (Q ++ b :: R)) v u =
      [(P ++ [a]) ++ b :: R, a :: (Q ++ [b])] ∧
    (cyclicEdges ((P ++ [a]) ++ b :: R)).toFinset ∪
      (cyclicEdges (a :: (Q ++ [b]))).toFinset =
    (cyclicEdges (P ++ a :: (Q ++ b :: R))).toFinset ∪ {normEdge v u} := by
  rcases hvu with ⟨h1, h2⟩ | ⟨h1, h2⟩
  · rw [← h1, ← h2]
    exact C7_core P Q R a b hnd
  · rw [← h1, ← h2]
    rw [get_subcycles_nodes_comm, normEdge_comm]
    exact C7_core P Q R a b hnd

/-- **C7, witness.**  Instantiated on the 4-cycle `[1,2,3,4]` and the chord
`(1,3)`. -/
theorem C7_witness :
    (([] ++ 1 :: ([2] ++ 3 :: [4]) : List Node).Nodup ∧
      (((1 : Node) = 1 ∧ (3 : Node) = 3) ∨ ((1 : Node) = 3 ∧ (3 : Node) = 1))) ∧
    (get_subcycles_nodes ([] ++ 1 :: ([2] ++ 3 :: [4])) 1 3 =
      [([] ++ [1]) ++ 3 :: [4], 1 :: ([2] ++ [3])] ∧
     (cyclicEdges (([] ++ [1]) ++ 3 :: [4])).toFinset ∪
       (cyclicEdges (1 :: ([2] ++ [3]))).toFinset =
     (cyclicEdges ([] ++ 1 :: ([2] ++ 3 :: [4]))).toFinset ∪ {normEdge 1 3}) :=
  ⟨⟨by decide, Or.inl ⟨rfl, rfl⟩⟩,
   C7_get_subcycles [] [2] [4] 1 3 1 3 (by decide) (Or.inl ⟨rfl, rfl⟩)⟩

/-! ## C2, C3, C1: evaluation of the engine on `G_ind` -/

/-- **C2.**  The claim states that `number_of_nonchordal_cycles` always
equals the number of catalog entries with `is_in_graph = true`.  On `G_ind`,
after the first forward step (chord 0 = `(1,3)`), the recomputation of
lines 199-209 registers the newly visible chordless cycle `[1,3,6,5]` with
`is_in_graph = true` but never increments the counter: the counter reads 2
while 3 catalog entries are active. -/
theorem C2_counter_mismatch :
    (runState G_ind 1).db.number_of_nonchordal_cycles = 2 ∧
    ((runState G_ind 1).db.cycles.filter (fun c => c.is_in_graph)).length = 3 ∧
    ((runState G_ind 1).db.cycles.getD 3 default).cyclenodes = [1, 3, 6, 5] ∧
    ((runState G_ind 1).db.cycles.getD 3 default).is_in_graph = true := by
  refine ⟨?_, ?_, ?_, ?_⟩ <;> rfl

/-- **C3.**  The claim states that a forward step immediately followed by
its matching backward step restores every previously existing entry's
`is_in_graph` flag and the counter, and leaves entries newly registered
during the forward step with `is_in_graph = false`.  On `G_ind`, taking the
forward step on chord 0 from the freshly initialised state and then the
matching backward step: the counter and the three pre-existing flags are
restored, but the induced cycle `[1,3,6,5]` registered during the forward
step still has `is_in_graph = true` — line 229 sets the misspelt attribute
`is_in_cycle` instead. -/
theorem C3_induced_cycle_left_active :
    (backwardStep (forwardStep 0 (initLoopState G_ind
        (initState G_ind)))).db.number_of_nonchordal_cycles =
      (initState G_ind).number_of_nonchordal_cycles ∧
    ((backwardStep (forwardStep 0 (initLoopState G_ind
        (initState G_ind)))).db.cycles.take 3).map (fun c => c.is_in_graph) =
      ((initState G_ind).cycles).map (fun c => c.is_in_graph) ∧
    (initState G_ind).cycles.length = 3 ∧
    (backwardStep (forwardStep 0 (initLoopState G_ind
        (initState G_ind)))).db.cycles.length = 4 ∧
    ((backwardStep (forwardStep 0 (initLoopState G_ind
        (initState G_ind)))).db.cycles.getD 3 default).cyclenodes = [1, 3, 6, 5] ∧
    ((backwardStep (forwardStep 0 (initLoopState G_ind
        (initState G_ind)))).db.cycles.getD 3 default).is_in_graph = true ∧
    ((backwardStep (forwardStep 0 (initLoopState G_ind
        (initState G_ind)))).db.cycles.getD 3 default).is_in_cycle = some false := by
  refine ⟨?_, ?_, ?_, ?_, ?_, ?_, ?_⟩ <;> rfl

set_option maxHeartbeats 1000000 in
/-- Stage of the `G_ind` evaluation: iterations 1-9 of the main loop. -/
theorem G_ind_stage1 :
    runLoop 9 (initLoopState G_ind G_ind_init) = G_ind_S9 := rfl

set_option maxHeartbeats 1000000 in
/-- Stage of the `G_ind` evaluation: iterations 10-18 of the main loop. -/
theorem G_ind_stage2 :
    runLoop 9 G_ind_S9 = G_ind_S18 := rfl

set_option maxHeartbeats 1000000 in
/-- Stage of the `G_ind` evaluation: iterations 19-27 of the main loop. -/
theorem G_ind_stage3 :
    runLoop 9 G_ind_S18 = G_ind_S27 := rfl

set_option maxHeartbeats 1000000 in
/-- Stage of the `G_ind` evaluation: iterations 28-36 of the main loop. -/
theorem G_ind_stage4 :
    runLoop 9 G_ind_S27 = G_ind_S36 := rfl

set_option maxHeartbeats 1000000 in
/-- Stage of the `G_ind` evaluation: iterations 37-45 of the main loop. -/
theorem G_ind_stage5 :
    runLoop 9 G_ind_S36 = G_ind_S45 := rfl

set_option maxHeartbeats 1000000 in
/-- Stage of the `G_ind` evaluation: iterations 46-54 of the main loop. -/
theorem G_ind_stage6 :
    runLoop 9 G_ind_S45 = G_ind_S54 := rfl

set_option maxHeartbeats 1000000 in
/-- The full 63-iteration run on `G_ind`, composed from the seven stages
(the last nine iterations, which set the `terminated` flag, are evaluated
directly). -/
theorem G_ind_run63 : run G_ind 63 = Except.ok G_ind_final := by
  rw [run_eq_of_init G_ind 63 G_ind_init rfl]
  rw [show (63 : Nat) = 9 + (9 + (9 + (9 + (9 + (9 + 9))))) from rfl]
  rw [runLoop_add, G_ind_stage1, runLoop_add, G_ind_stage2, runLoop_add, G_ind_stage3,
      runLoop_add, G_ind_stage4, runLoop_add, G_ind_stage5, runLoop_add, G_ind_stage6]
  rfl

set_option maxHeartbeats 1000000 in
/-- **C1.**  The claim states that for every input on which initialisation
succeeds, `get_triangulated()` after `run()` is chordal.  On `G_ind` the
search terminates (in 63 iterations) with
`edges_of_triangulation = [(1,3),(1,6)]`, recorded at a moment when the
miscounted `number_of_nonchordal_cycles` read zero; the resulting graph
still contains the chordless 4-cycle `[2,3,6,5]`, so it is not chordal. -/
theorem C1_result_not_chordal :
    (runState G_ind 63).terminated = true ∧
    (runState G_ind 63).db.edges_of_triangulation = [(1, 3), (1, 6)] ∧
    is_chordal (get_triangulated (runState G_ind 63).db) = false := by
  have h : runState G_ind 63 = G_ind_final := by
    show (run G_ind 63).toOption.getD default = G_ind_final
    rw [G_ind_run63]
    rfl
  rw [h]
  exact ⟨rfl, rfl, rfl⟩

/-! ## Auxiliary evaluations: `run` on small simple cycles (claim C4) -/

/-- `run` on the 4-cycle finds a minimum triangulation of size 1 = 4 - 3. -/
theorem run_cycle4_size :
    (runState (cycleGraph 4) 50).terminated = true ∧
    (runState (cycleGraph 4) 50).db.edges_of_triangulation.length = 1 := by
  constructor <;> rfl

/-- `run` on the 5-cycle finds a minimum triangulation of size 2 = 5 - 3. -/
theorem run_cycle5_size :
    (runState (cycleGraph 5) 100).terminated = true ∧
    (runState (cycleGraph 5) 100).db.edges_of_triangulation.length = 2 := by
  constructor <;> rfl
